import Mathlib

/-!
Verification of the obvyai/app job-orchestration core against its sources.

The embedding follows the TypeScript/JavaScript sources:
- `src/unnamed/part_004` (`DynamoDBService`: `createJob`, `getJob`, `updateJobStatus`),
- `src/services/api/src/handlers/submit-job.ts` and
  `src/infra/terraform/modules/api/lambda-src/submit-job.js` (the two submit handlers),
- `src/packages/shared/src/types/api.ts` (`SubmitJobRequestSchema`),
- `src/services/api/src/utils/auth.ts` (`extractUserContext`, `validateResourceAccess`),
- `src/unnamed/part_007` (the JavaScript get-job handler and its `getUserId`).

DynamoDB is modelled as an association list of job items keyed by `jobId`;
ISO timestamp strings are modelled as natural numbers; JavaScript numbers
(which may be non-integral) are modelled as rationals.
-/

/-- Job states, from `JobStatus` in `src/packages/shared/src/types/api.ts`. -/
inductive JobStatus
  | PENDING
  | RUNNING
  | SUCCEEDED
  | FAILED
deriving DecidableEq, Repr

/-- A state is terminal when it is `SUCCEEDED` or `FAILED`; mirrors the
check `status === 'SUCCEEDED' || status === 'FAILED'` in `updateJobStatus`. -/
def JobStatus.isTerminal : JobStatus → Bool
  | .SUCCEEDED => true
  | .FAILED => true
  | _ => false

/-- Validated submit parameters, from `SubmitJobRequest` in
`src/packages/shared/src/types/api.ts` (the zod-parsed shape, defaults applied).
JavaScript numbers are rationals. -/
structure SubmitJobRequest where
  prompt : String
  modelId : String
  steps : Rat
  guidanceScale : Rat
  width : Rat
  height : Rat
  seed : Option Rat
  quality : String
  mode : String
  negativePrompt : Option String
deriving DecidableEq, Repr

/-- The inference-parameter object built by the JavaScript submit handler
(`submit-job.js` lines 122-130): trimmed prompt and truthiness-based
defaults; no mode, modelId or negative prompt. -/
structure JsInferenceParams where
  prompt : String
  steps : Rat
  guidance_scale : Rat
  width : Rat
  height : Rat
  seed : Rat
  quality : String
deriving DecidableEq, Repr

/-- The `inputParams` attribute stored on a job record: the TypeScript
handler stores the zod-parsed request, the JavaScript one its own
inference-parameter object. -/
inductive InputParams
  | ts (r : SubmitJobRequest)
  | js (p : JsInferenceParams)
deriving DecidableEq, Repr

/-- A DynamoDB job record, from `JobItem` usage across
`src/services/api/src/handlers/submit-job.ts`, `src/unnamed/part_004` and
`src/infra/terraform/modules/api/lambda-src/submit-job.js`.
Timestamps are naturals standing for ISO strings; `errorMsg` models the
`error` attribute, `result` the inline result attribute written by the
JavaScript sync path. -/
structure JobItem where
  jobId : String
  userId : String
  status : JobStatus
  createdAt : Nat
  updatedAt : Nat
  completedAt : Option Nat
  inputParams : Option InputParams
  mode : String
  ttl : Nat
  errorMsg : Option String
  metadata : Option String
  result : Option String
deriving DecidableEq, Repr

/-- The jobs table: DynamoDB modelled as a list of items keyed by `jobId`. -/
abbrev JobsTable := List JobItem

/-- `GetItemCommand` keyed on `jobId` (part_004 `getJob`). -/
def lookupJob (t : JobsTable) (id : String) : Option JobItem :=
  List.find? (fun j => j.jobId == id) t

/-- Errors thrown by the DynamoDB service wrapper (part_004): every failure is
rethrown as `InternalError` except the conditional-check failure of
`updateJobStatus`, which becomes `NotFoundError`. -/
inductive DbError
  | internalError (msg : String)
  | notFoundError (msg : String)
deriving DecidableEq, Repr

/-- `DynamoDBService.createJob` (part_004 lines 19-34): a `PutItemCommand`
with `ConditionExpression: attribute_not_exists(jobId)`; on a duplicate id the
conditional check fails and the catch block raises
`InternalError('Failed to create job')`, leaving the table unchanged. -/
def createJob (t : JobsTable) (job : JobItem) : Except DbError JobsTable :=
  if (lookupJob t job.jobId).isSome then
    .error (.internalError "Failed to create job")
  else
    .ok (job :: t)

/-- The optional attribute updates passed to `updateJobStatus` (the
`updates: Partial JobItem` argument as used by the handlers: only `error`
and `metadata` are ever passed; an absent field is not written). -/
structure JobUpdates where
  errorMsg : Option String
  metadata : Option String
deriving DecidableEq, Repr

/-- The empty updates object. -/
def noUpdates : JobUpdates := ⟨none, none⟩

/-- Merging the optional updates into an item, per the
`Object.entries(updates)` loop of `updateJobStatus` (part_004 lines 84-93):
a defined value overwrites the attribute, an undefined one leaves it. -/
def applyUpdates (j : JobItem) (u : JobUpdates) : JobItem :=
  { j with
    errorMsg := match u.errorMsg with | some e => some e | none => j.errorMsg,
    metadata := match u.metadata with | some m => some m | none => j.metadata }

/-- The per-item effect of `updateJobStatus` (part_004 lines 67-100): set
`status` and `updatedAt`, add `completedAt := now` exactly when the new
status is terminal, then merge the optional updates. -/
def updateItem (st : JobStatus) (u : JobUpdates) (now : Nat) (j : JobItem) : JobItem :=
  applyUpdates
    { j with
      status := st,
      updatedAt := now,
      completedAt := if st.isTerminal then some now else j.completedAt }
    u

/-- The table-wide effect of one `UpdateItemCommand`: the item keyed by
`id` is rewritten, every other item is untouched. -/
def updFn (id : String) (st : JobStatus) (u : JobUpdates) (now : Nat)
    (j : JobItem) : JobItem :=
  if j.jobId == id then updateItem st u now j else j

/-- `DynamoDBService.updateJobStatus` (part_004 lines 59-112): an
`UpdateItemCommand` keyed on `jobId` whose only condition is
`attribute_exists(jobId)`; a conditional-check failure (missing item) is
rethrown as `NotFoundError`. Note: the condition checks existence only, not
the current status. -/
def updateJobStatus (t : JobsTable) (id : String) (st : JobStatus)
    (u : JobUpdates) (now : Nat) : Except DbError JobsTable :=
  match lookupJob t id with
  | none => .error (.notFoundError ("Job " ++ id ++ " not found"))
  | some _ => .ok (t.map (updFn id st u now))

/-- The unconditional `PutItemCommand` of the JavaScript submit handler
(`submit-job.js` lines 158-161 and 211-219/238-247): no condition
expression, so an existing item with the same `jobId` is replaced. -/
def jsPutJob (t : JobsTable) (job : JobItem) : JobsTable :=
  if (lookupJob t job.jobId).isSome then
    t.map (fun j => if j.jobId == job.jobId then job else j)
  else
    job :: t

/-- A raw (already JSON-parsed) submit body before validation: every field
may be absent. JavaScript numbers are rationals, so non-integral values are
representable. -/
structure RawRequest where
  prompt : Option String
  modelId : Option String
  steps : Option Rat
  guidanceScale : Option Rat
  width : Option Rat
  height : Option Rat
  seed : Option Rat
  quality : Option String
  mode : Option String
  negativePrompt : Option String
deriving DecidableEq, Repr

/-- An all-absent raw body, the base point for concrete test inputs. -/
def emptyRaw : RawRequest :=
  ⟨none, none, none, none, none, none, none, none, none, none⟩

/-- The whitespace characters stripped by the JavaScript string trim. -/
def isJsWhitespace (c : Char) : Bool :=
  c == ' ' || c == '\t' || c == '\n' || c == '\r'

/-- `String.prototype.trim`: strips whitespace from both ends. -/
def jsTrim (s : String) : String :=
  ⟨((s.data.dropWhile isJsWhitespace).reverse.dropWhile isJsWhitespace).reverse⟩

/-- JavaScript truthiness of an optional string: absent and the empty
string are falsy. -/
def truthyStr : Option String → Bool
  | none => false
  | some s => !(s == "")

/-- JavaScript truthiness of an optional number: absent and 0 are falsy. -/
def truthyRat : Option Rat → Bool
  | none => false
  | some q => !(q == 0)

/-- `a || b` on optional strings: the first truthy value, if any. -/
def jsOrStr (a b : Option String) : Option String :=
  if truthyStr a then a else if truthyStr b then b else none

/-- `a || d` with a string default. -/
def jsOrStrD (a : Option String) (d : String) : String :=
  if truthyStr a then a.getD d else d

/-- `a || d` with a numeric default (so an explicit 0 falls back to the
default, as in JavaScript). -/
def jsOrRatD (a : Option Rat) (d : Rat) : Rat :=
  if truthyRat a then a.getD d else d

/-- `w % 64 === 0` for a JavaScript number: true exactly for integral
multiples of 64. -/
def ratDivisibleBy64 (w : Rat) : Bool :=
  w.den == 1 && w.num % 64 == 0

/-- Issues of the zod `prompt` field (`SubmitJobRequestSchema`): required,
length at least 1 and at most 1000. -/
def zodPromptIssues : Option String → List String
  | none => ["Required"]
  | some p =>
      (if p.length < 1 then ["Prompt cannot be empty"] else []) ++
      (if 1000 < p.length then ["Prompt too long (max 1000 characters)"] else [])

/-- Issues of the zod `steps` field: optional, integer, in [1, 50]. -/
def zodStepsIssues : Option Rat → List String
  | none => []
  | some s =>
      (if s.den == 1 then [] else ["Expected integer, received float"]) ++
      (if s < 1 then ["Steps must be at least 1"] else []) ++
      (if 50 < s then ["Steps cannot exceed 50"] else [])

/-- Issues of the zod `guidanceScale` field: optional, in [1.0, 20.0]. -/
def zodGuidanceIssues : Option Rat → List String
  | none => []
  | some g =>
      (if g < 1 then ["Guidance scale must be at least 1.0"] else []) ++
      (if 20 < g then ["Guidance scale cannot exceed 20.0"] else [])

/-- Issues of the zod `width` field: optional, integer, in [256, 1024],
divisible by 64. -/
def zodWidthIssues : Option Rat → List String
  | none => []
  | some w =>
      (if w.den == 1 then [] else ["Expected integer, received float"]) ++
      (if w < 256 then ["Width must be at least 256"] else []) ++
      (if 1024 < w then ["Width cannot exceed 1024"] else []) ++
      (if ratDivisibleBy64 w then [] else ["Width must be divisible by 64"])

/-- Issues of the zod `height` field: optional, integer, in [256, 1024],
divisible by 64. -/
def zodHeightIssues : Option Rat → List String
  | none => []
  | some h =>
      (if h.den == 1 then [] else ["Expected integer, received float"]) ++
      (if h < 256 then ["Height must be at least 256"] else []) ++
      (if 1024 < h then ["Height cannot exceed 1024"] else []) ++
      (if ratDivisibleBy64 h then [] else ["Height must be divisible by 64"])

/-- Issues of the zod `seed` field: optional, integer, in [0, 2147483647]. -/
def zodSeedIssues : Option Rat → List String
  | none => []
  | some s =>
      (if s.den == 1 then [] else ["Expected integer, received float"]) ++
      (if s < 0 then ["Number must be greater than or equal to 0"] else []) ++
      (if 2147483647 < s then ["Number must be less than or equal to 2147483647"] else [])

/-- Issues of the zod `quality` enum field. -/
def zodQualityIssues : Option String → List String
  | none => []
  | some q =>
      if q == "low" || q == "medium" || q == "high" then [] else ["Invalid enum value for quality"]

/-- Issues of the zod `mode` enum field. -/
def zodModeIssues : Option String → List String
  | none => []
  | some m =>
      if m == "async" || m == "sync" then [] else ["Invalid enum value for mode"]

/-- Issues of the zod `negativePrompt` field: optional, length at most 500. -/
def zodNegativePromptIssues : Option String → List String
  | none => []
  | some np =>
      if 500 < np.length then ["String must contain at most 500 characters"] else []

/-- All issues of `SubmitJobRequestSchema.safeParse`
(`src/packages/shared/src/types/api.ts` lines 31-69). -/
def zodIssues (r : RawRequest) : List String :=
  zodPromptIssues r.prompt ++ zodStepsIssues r.steps ++
  zodGuidanceIssues r.guidanceScale ++ zodWidthIssues r.width ++
  zodHeightIssues r.height ++ zodSeedIssues r.seed ++
  zodQualityIssues r.quality ++ zodModeIssues r.mode ++
  zodNegativePromptIssues r.negativePrompt

/-- `safeParse` succeeds exactly when no issue is produced. -/
def zodAccepts (r : RawRequest) : Bool :=
  zodIssues r == []

/-- The zod-parsed request with schema defaults applied
(`modelId` stable-diffusion-xl, `steps` 20, `guidanceScale` 7.5,
`width`/`height` 1024, `quality` medium, `mode` async). -/
def zodParse (r : RawRequest) : Option SubmitJobRequest :=
  if zodAccepts r then
    some
      { prompt := r.prompt.getD "",
        modelId := r.modelId.getD "stable-diffusion-xl",
        steps := r.steps.getD 20,
        guidanceScale := r.guidanceScale.getD (mkRat 15 2),
        width := r.width.getD 1024,
        height := r.height.getD 1024,
        seed := r.seed,
        quality := r.quality.getD "medium",
        mode := r.mode.getD "async",
        negativePrompt := r.negativePrompt }
  else none

/-- `validateInput` of the JavaScript submit handler (`submit-job.js`
lines 22-62). Each range check is guarded by JavaScript truthiness of the
field, so absent and zero-valued fields skip their checks. -/
def validateInput (b : RawRequest) : List String :=
  (if !truthyStr b.prompt || jsTrim (b.prompt.getD "") == "" then
      ["prompt is required and must be a non-empty string"] else []) ++
  (if truthyStr b.prompt && 1000 < (b.prompt.getD "").length then
      ["prompt must be less than 1000 characters"] else []) ++
  (if truthyRat b.steps && (b.steps.getD 0 < 1 || 50 < b.steps.getD 0) then
      ["steps must be a number between 1 and 50"] else []) ++
  (if truthyRat b.guidanceScale &&
      (b.guidanceScale.getD 0 < 1 || 20 < b.guidanceScale.getD 0) then
      ["guidanceScale must be a number between 1 and 20"] else []) ++
  (if truthyRat b.width &&
      (b.width.getD 0 < 256 || 1024 < b.width.getD 0 || !ratDivisibleBy64 (b.width.getD 0)) then
      ["width must be a number between 256 and 1024, divisible by 64"] else []) ++
  (if truthyRat b.height &&
      (b.height.getD 0 < 256 || 1024 < b.height.getD 0 || !ratDivisibleBy64 (b.height.getD 0)) then
      ["height must be a number between 256 and 1024, divisible by 64"] else []) ++
  (if truthyRat b.seed && (b.seed.getD 0 < 0 || 2147483647 < b.seed.getD 0) then
      ["seed must be a number between 0 and 2147483647"] else []) ++
  (if truthyStr b.quality &&
      !(b.quality.getD "" == "low" || b.quality.getD "" == "medium" || b.quality.getD "" == "high") then
      ["quality must be one of: low, medium, high"] else []) ++
  (if truthyStr b.mode && !(b.mode.getD "" == "async" || b.mode.getD "" == "sync") then
      ["mode must be one of: async, sync"] else [])

/-- JWT claims attached to an API Gateway event
(`event.requestContext.authorizer.jwt.claims`); `none` at the outer level
models an event with no authorizer claims at all. -/
structure JwtClaims where
  sub : Option String
  cognitoUsername : Option String
  email : Option String
  preferredUsername : Option String
  groups : List String
deriving DecidableEq, Repr

/-- `getUserId` of the JavaScript handlers (`submit-job.js` lines 64-73,
part_007 lines 13-21): `claims.sub || claims[cognito:username] || anonymous`,
with the catch block also returning the fallback; it never throws. -/
def getUserId (claims : Option JwtClaims) : String :=
  match claims with
  | none => "anonymous"
  | some c =>
      match jsOrStr c.sub c.cognitoUsername with
      | some u => u
      | none => "anonymous"

/-- The user context built by `extractUserContext`
(`src/services/api/src/utils/auth.ts`). -/
structure UserContext where
  userId : String
  email : Option String
  username : Option String
  isAdmin : Bool
deriving DecidableEq, Repr

/-- `extractUserContext` (`auth.ts` lines 12-46): requires claims and a
truthy `sub` or `cognito:username`; every failure is rethrown by the catch
block as `UnauthorizedError(Invalid authentication)`. Admin status is
membership of admin in `cognito:groups`. -/
def extractUserContext (claims : Option JwtClaims) : Except String UserContext :=
  match claims with
  | none => .error "Invalid authentication"
  | some c =>
      match jsOrStr c.sub c.cognitoUsername with
      | none => .error "Invalid authentication"
      | some uid =>
          .ok
            { userId := uid,
              email := c.email,
              username := jsOrStr c.cognitoUsername c.preferredUsername,
              isAdmin := c.groups.contains "admin" }

/-- `validateResourceAccess` (`auth.ts` lines 48-56): admins pass, otherwise
the requester id must equal the resource owner id, else
`UnauthorizedError(Access denied to this resource)` is thrown. -/
def validateResourceAccess (ctx : UserContext) (resourceUserId : String) : Except String Unit :=
  if ctx.isAdmin then .ok ()
  else if !(ctx.userId == resourceUserId) then .error "Access denied to this resource"
  else .ok ()

/-- Outcome of the JavaScript get-job handler (part_007 lines 39-162),
reduced to its decision: 400 without a job id, 404 when the record is
absent, 403 when an existing record belongs to another user and the
requester is not the literal admin user, 200 otherwise. -/
inductive GetJobOutcome
  | badRequest
  | notFound
  | forbidden
  | ok (job : JobItem)
deriving DecidableEq, Repr

/-- The HTTP status code of each get-job outcome, as written literally in
part_007. -/
def GetJobOutcome.statusCode : GetJobOutcome → Nat
  | .badRequest => 400
  | .notFound => 404
  | .forbidden => 403
  | .ok _ => 200

/-- The JavaScript get-job handler (part_007): path parameter check, table
lookup, then the ownership check
`job.userId !== userId && userId !== admin`. -/
def getJobHandlerJS (t : JobsTable) (claims : Option JwtClaims)
    (jobId : Option String) : GetJobOutcome :=
  match jobId with
  | none => .badRequest
  | some id =>
      match lookupJob t id with
      | none => .notFound
      | some job =>
          let userId := getUserId claims
          if !(job.userId == userId) && !(userId == "admin") then .forbidden
          else .ok job

/-- The response shape shared by both submit handlers, keeping only the
fields the sources write. -/
structure HttpResponse where
  statusCode : Nat
  jobId : Option String
  status : Option JobStatus
  message : Option String
  estimatedWaitTime : Option String
  errorMsg : Option String
  details : List String
deriving DecidableEq, Repr

/-- An error response carrying a message and optional details. -/
def errResp (code : Nat) (msg : String) (details : List String) : HttpResponse :=
  ⟨code, none, none, none, none, some msg, details⟩

/-- Outcome of `SageMakerService.invokeSync` (sagemaker.ts lines 121-158):
a generated image plus metadata, or a thrown error message. -/
inductive SyncOutcome
  | ok (image : String) (metaData : String)
  | err (msg : String)
deriving DecidableEq, Repr

/-- Outcome of `SageMakerService.invokeAsync` (sagemaker.ts lines 68-119):
an output location acknowledgment, or a thrown error message. -/
inductive AsyncOutcome
  | ok (outputLocation : String)
  | err (msg : String)
deriving DecidableEq, Repr

/-- Modelled from the spec: the response helpers in
`src/services/api/src/utils/response.ts` (`errorResponse`) are not among
the sources. Per the error taxonomy of the spec, section 7 (validation bad
input 4xx, missing job 4xx, authorization failure 4xx surfacing as
Forbidden, internal errors generic), and the 403 surfacing named for the
authorization errors, the codes are: validation 400, not-found 404,
unauthorized 403, internal 500. -/
def tsErrorCode : DbError → Nat
  | .internalError _ => 500
  | .notFoundError _ => 404

/-- The message carried by a thrown service error. -/
def DbError.message : DbError → String
  | .internalError m => m
  | .notFoundError m => m

/-- The job record built by the TypeScript submit handler
(`submit-job.ts` lines 60-69): fresh id, `PENDING`, both timestamps at
creation time, the parsed request as input parameters, a 7-day ttl. -/
def mkJobItemTS (jobId userId : String) (req : SubmitJobRequest) (now : Nat) : JobItem :=
  { jobId := jobId,
    userId := userId,
    status := .PENDING,
    createdAt := now,
    updatedAt := now,
    completedAt := none,
    inputParams := some (.ts req),
    mode := req.mode,
    ttl := now + 604800,
    errorMsg := none,
    metadata := none,
    result := none }

/-- The TypeScript submit handler (`submit-job.ts` lines 13-143).
External effects are passed as parameters: the authorizer claims, the
parsed body (`none` models a missing body), the generated ulid, the
creation and update clock readings, and the two SageMaker outcomes. The
result is the final table and the HTTP response. Error codes for thrown
errors follow the spec-modelled `errorResponse` mapping (validation 400,
unauthorized 403, internal 500). -/
def submitJobTS (t : JobsTable) (claims : Option JwtClaims)
    (body : Option RawRequest) (newJobId : String) (tCreate tUpdate : Nat)
    (syncOutcome : SyncOutcome) (asyncOutcome : AsyncOutcome) :
    JobsTable × HttpResponse :=
  match extractUserContext claims with
  | .error m => (t, errResp 403 m [])
  | .ok ctx =>
      match body with
      | none => (t, errResp 400 "Request body is required" [])
      | some raw =>
          match zodParse raw with
          | none => (t, errResp 400 "Invalid request parameters" (zodIssues raw))
          | some req =>
              let job := mkJobItemTS newJobId ctx.userId req tCreate
              match createJob t job with
              | .error e => (t, errResp (tsErrorCode e) e.message [])
              | .ok t1 =>
                  if req.mode == "sync" then
                    match syncOutcome with
                    | .ok _img meta =>
                        match updateJobStatus t1 newJobId .SUCCEEDED ⟨none, some meta⟩ tUpdate with
                        | .ok t2 =>
                            (t2, { statusCode := 200, jobId := some newJobId,
                                   status := some .SUCCEEDED, message := none,
                                   estimatedWaitTime := none, errorMsg := none,
                                   details := [] })
                        | .error e =>
                            match updateJobStatus t1 newJobId .FAILED ⟨some e.message, none⟩ tUpdate with
                            | .ok t2 => (t2, errResp (tsErrorCode e) e.message [])
                            | .error _ => (t1, errResp (tsErrorCode e) e.message [])
                    | .err m =>
                        match updateJobStatus t1 newJobId .FAILED ⟨some m, none⟩ tUpdate with
                        | .ok t2 => (t2, errResp 500 m [])
                        | .error _ => (t1, errResp 500 m [])
                  else
                    match asyncOutcome with
                    | .ok _loc =>
                        match updateJobStatus t1 newJobId .RUNNING noUpdates tUpdate with
                        | .ok t2 =>
                            (t2, { statusCode := 202, jobId := some newJobId,
                                   status := some .PENDING,
                                   message := some "Job submitted successfully. First inference may take up to 60 seconds due to cold start.",
                                   estimatedWaitTime := some "60-120 seconds",
                                   errorMsg := none, details := [] })
                        | .error e =>
                            match updateJobStatus t1 newJobId .FAILED ⟨some e.message, none⟩ tUpdate with
                            | .ok t2 => (t2, errResp (tsErrorCode e) e.message [])
                            | .error _ => (t1, errResp (tsErrorCode e) e.message [])
                    | .err m =>
                        match updateJobStatus t1 newJobId .FAILED ⟨some m, none⟩ tUpdate with
                        | .ok t2 => (t2, errResp 500 m [])
                        | .error _ => (t1, errResp 500 m [])

/-- The inference parameters built by the JavaScript submit handler
(`submit-job.js` lines 122-130): trimmed prompt and `||` defaults, the
random seed being drawn when `body.seed` is falsy. -/
def mkJsInferenceParams (b : RawRequest) (randomSeed : Rat) : JsInferenceParams :=
  { prompt := jsTrim (b.prompt.getD ""),
    steps := jsOrRatD b.steps 20,
    guidance_scale := jsOrRatD b.guidanceScale (mkRat 15 2),
    width := jsOrRatD b.width 512,
    height := jsOrRatD b.height 512,
    seed := jsOrRatD b.seed randomSeed,
    quality := jsOrStrD b.quality "medium" }

/-- The job record stored by the JavaScript submit handler
(`submit-job.js` lines 147-156): no completion timestamp field at all. -/
def mkJobItemJS (jobId userId : String) (params : JsInferenceParams)
    (mode : String) (now : Nat) : JobItem :=
  { jobId := jobId,
    userId := userId,
    status := .PENDING,
    createdAt := now,
    updatedAt := now,
    completedAt := none,
    inputParams := some (.js params),
    mode := mode,
    ttl := now + 604800,
    errorMsg := none,
    metadata := none,
    result := none }

/-- The JavaScript submit handler (`submit-job.js` lines 75-282). Returns
the final table, the list of staging (S3 input) keys written, and the HTTP
response. The store write is the unconditional put. In async mode the S3
upload and the endpoint invocation are not guarded by an inner try, so
their failures fall to the outer catch (500) with no further job write; in
sync mode an invocation failure rewrites the record as FAILED. -/
def submitJobJS (t : JobsTable) (claims : Option JwtClaims) (body : RawRequest)
    (newJobId : String) (randomSeed : Rat) (tNow tUpd : Nat)
    (s3Outcome : Except String Unit) (syncOutcome : SyncOutcome)
    (asyncOutcome : AsyncOutcome) :
    JobsTable × List String × HttpResponse :=
  let errs := validateInput body
  if !(errs == []) then
    (t, [], errResp 400 "Validation failed" errs)
  else
    let params := mkJsInferenceParams body randomSeed
    let mode := jsOrStrD body.mode "async"
    let job := mkJobItemJS newJobId (getUserId claims) params mode tNow
    let t1 := jsPutJob t job
    if mode == "async" then
      match s3Outcome with
      | .error m => (t1, [], errResp 500 "Internal server error" [m])
      | .ok _ =>
          let staged := ["jobs/" ++ newJobId ++ "/input.json"]
          match asyncOutcome with
          | .err m => (t1, staged, errResp 500 "Internal server error" [m])
          | .ok _loc =>
              (t1, staged,
                { statusCode := 202, jobId := some newJobId,
                  status := some .PENDING,
                  message := some "Job submitted successfully. First inference may take up to 60 seconds due to cold start.",
                  estimatedWaitTime := some "60-120 seconds",
                  errorMsg := none, details := [] })
    else
      match syncOutcome with
      | .ok _img meta =>
          let t2 := jsPutJob t1 { job with status := .SUCCEEDED, updatedAt := tUpd, result := some meta }
          (t2, [],
            { statusCode := 200, jobId := some newJobId, status := some .SUCCEEDED,
              message := none, estimatedWaitTime := none, errorMsg := none,
              details := [] })
      | .err m =>
          let t2 := jsPutJob t1 { job with status := .FAILED, updatedAt := tUpd, errorMsg := some m }
          (t2, [], errResp 500 "Inference failed" [m])

/-- Concrete fixture: a job already in a terminal state, with a result
reference recorded. -/
def cJobTerminal : JobItem :=
  { jobId := "J1", userId := "alice", status := .SUCCEEDED, createdAt := 1,
    updatedAt := 2, completedAt := some 2, inputParams := none,
    mode := "async", ttl := 700000, errorMsg := none, metadata := none,
    result := some "r1" }

/-- Concrete fixture: a freshly created pending job. -/
def cJobPending : JobItem :=
  { jobId := "J2", userId := "alice", status := .PENDING, createdAt := 1,
    updatedAt := 1, completedAt := none, inputParams := none,
    mode := "async", ttl := 700000, errorMsg := none, metadata := none,
    result := none }

/-- Concrete fixture: authorizer claims with a subject id. -/
def cClaims : JwtClaims := ⟨some "u1", none, none, none, []⟩

/-- Concrete fixture: a valid async submit body (the end-to-end scenario
of the spec). -/
def cReqAsync : RawRequest :=
  { emptyRaw with prompt := some "a beautiful sunset over mountains",
                  mode := some "async", steps := some 20 }

/-- Concrete fixture: a valid sync submit body. -/
def cReqSync : RawRequest :=
  { emptyRaw with prompt := some "p", mode := some "sync" }

/-- Concrete fixture: a body with a zero step count (falsy in
JavaScript). -/
def cReqSteps0 : RawRequest :=
  { emptyRaw with prompt := some "hi", steps := some 0 }

/-- Concrete fixture: an existing terminal job of user alice stored under
the identifier J9. -/
def cJobAlice9 : JobItem :=
  { jobId := "J9", userId := "alice", status := .SUCCEEDED, createdAt := 1,
    updatedAt := 2, completedAt := some 2, inputParams := none,
    mode := "async", ttl := 700000, errorMsg := none, metadata := none,
    result := some "r1" }

/-- Concrete fixture: authorizer claims of a second user. -/
def cClaimsBob : JwtClaims := ⟨some "bob", none, none, none, []⟩

/-- Concrete fixture: a body failing validation in both validators (empty
prompt, steps out of range). -/
def cReqBad : RawRequest :=
  { emptyRaw with prompt := some "", steps := some 99 }

/-- Concrete fixture: the zod parse of the async body, defaults applied. -/
def cParsedAsync : SubmitJobRequest :=
  ⟨"a beautiful sunset over mountains", "stable-diffusion-xl", 20, mkRat 15 2,
   1024, 1024, none, "medium", "async", none⟩

theorem lookupJob_cons_ne (job : JobItem) (t : JobsTable) (id : String)
    (h : (job.jobId == id) = false) : lookupJob (job :: t) id = lookupJob t id := by
  simp [lookupJob, List.find?, h]

theorem lookupJob_cons_self (job : JobItem) (t : JobsTable) (id : String)
    (h : (job.jobId == id) = true) : lookupJob (job :: t) id = some job := by
  simp [lookupJob, List.find?, h]

theorem lookupJob_map_cond (t : JobsTable) (id : String) (f : JobItem → JobItem)
    (hf : ∀ j : JobItem, (j.jobId == id) = true → ((f j).jobId == id) = true) :
    lookupJob (t.map (fun j => if j.jobId == id then f j else j)) id
      = Option.map (fun j => if j.jobId == id then f j else j) (lookupJob t id) := by
  induction t with
  | nil => rfl
  | cons a t ih =>
      by_cases h : (a.jobId == id) = true
      · simp only [List.map_cons, lookupJob, List.find?, h, if_pos, hf a h]
        simp [show a.jobId = id by simpa using h]
      · have h' : (a.jobId == id) = false := by
          cases hab : (a.jobId == id) <;> simp_all
        simp only [List.map_cons, lookupJob, List.find?, h', if_neg, Bool.false_eq_true,
          if_false, cond_false] at *
        simpa [lookupJob] using ih

theorem lookupJob_map_cond_other (t : JobsTable) (id id2 : String)
    (hne : (id == id2) = false) (f : JobItem → JobItem)
    (hf : ∀ j : JobItem, (j.jobId == id) = true → ((f j).jobId == id) = true) :
    lookupJob (t.map (fun j => if j.jobId == id then f j else j)) id2
      = lookupJob t id2 := by
  induction t with
  | nil => rfl
  | cons a t ih =>
      by_cases h : (a.jobId == id) = true
      · have ha : a.jobId = id := by simpa using h
        have hfa : (f a).jobId = id := by simpa using hf a h
        have h2 : (a.jobId == id2) = false := by simp [ha]; simpa using hne
        have h2' : ((f a).jobId == id2) = false := by simp [hfa]; simpa using hne
        simp only [List.map_cons, lookupJob, List.find?, h, if_pos, h2, h2', cond_false]
        simpa [lookupJob] using ih
      · have h' : (a.jobId == id) = false := by
          cases hab : (a.jobId == id) <;> simp_all
        simp only [List.map_cons, lookupJob, List.find?, h', Bool.false_eq_true, if_false]
        cases hab : (a.jobId == id2) <;>
          simp only [lookupJob, List.find?, hab, cond_false, cond_true] <;>
          simpa [lookupJob] using ih

theorem lookupJob_some_key (t : JobsTable) (id : String) (j : JobItem)
    (h : lookupJob t id = some j) : (j.jobId == id) = true := by
  unfold lookupJob at h
  simpa using List.find?_some h

theorem updateItem_jobId (st : JobStatus) (u : JobUpdates) (n : Nat) (j : JobItem) :
    (updateItem st u n j).jobId = j.jobId := rfl

theorem updFn_eq (id : String) (st : JobStatus) (u : JobUpdates) (n : Nat) :
    updFn id st u n = fun j => if j.jobId == id then updateItem st u n j else j := by
  funext j
  rfl

theorem lookupJob_updTable_self (t : JobsTable) (id : String) (st : JobStatus)
    (u : JobUpdates) (n : Nat) (j : JobItem) (h : lookupJob t id = some j) :
    lookupJob (t.map (updFn id st u n)) id = some (updateItem st u n j) := by
  rw [updFn_eq]
  rw [lookupJob_map_cond t id (updateItem st u n)
    (fun j' hj' => by simpa [updateItem_jobId] using hj')]
  rw [h]
  have hk : j.jobId = id := by simpa using lookupJob_some_key t id j h
  simp [hk]

theorem lookupJob_updTable_other (t : JobsTable) (id id2 : String) (st : JobStatus)
    (u : JobUpdates) (n : Nat) (hne : (id == id2) = false) :
    lookupJob (t.map (updFn id st u n)) id2 = lookupJob t id2 := by
  rw [updFn_eq]
  exact lookupJob_map_cond_other t id id2 hne (updateItem st u n)
    (fun j' hj' => by simpa [updateItem_jobId] using hj')

theorem updateJobStatus_ok (t : JobsTable) (id : String) (st : JobStatus)
    (u : JobUpdates) (n : Nat) (j : JobItem) (h : lookupJob t id = some j) :
    updateJobStatus t id st u n = .ok (t.map (updFn id st u n)) := by
  unfold updateJobStatus
  rw [h]

theorem updateJobStatus_isOk_eq (t : JobsTable) (id : String) (st : JobStatus)
    (u : JobUpdates) (n : Nat) :
    (updateJobStatus t id st u n).isOk = (lookupJob t id).isSome := by
  unfold updateJobStatus
  cases lookupJob t id <;> rfl

theorem lookupJob_jsPut_map (t : JobsTable) (job : JobItem) :
    lookupJob (t.map (fun j => if j.jobId == job.jobId then job else j)) job.jobId
      = Option.map (fun j => if j.jobId == job.jobId then job else j)
          (lookupJob t job.jobId) :=
  lookupJob_map_cond t job.jobId (fun _ => job) (fun _ _ => by simp)

theorem lookupJob_jsPutJob_self (t : JobsTable) (job : JobItem) :
    lookupJob (jsPutJob t job) job.jobId = some job := by
  unfold jsPutJob
  cases h : lookupJob t job.jobId with
  | none => simp [h, lookupJob_cons_self job t job.jobId (by simp)]
  | some j0 =>
      rw [if_pos (show (some j0).isSome = true from rfl), lookupJob_jsPut_map, h]
      have hk : j0.jobId = job.jobId := by
        simpa using lookupJob_some_key t job.jobId j0 h
      simp [hk]

/-- C1 (amended): every write applied to an existing Job record through
`updateJobStatus` is a conditional update keyed only on the existence of
the record (`attribute_exists(jobId)`), not on its expected current state:
the write succeeds exactly when the job exists, whatever its status, so a
completion is also accepted against a non-RUNNING job. Delivering the same
completion signal twice yields the same status, error message, metadata
and result reference as delivering it once, but rewrites the `updatedAt`
and `completedAt` timestamps of the record, which is an observable side
effect. -/
theorem updateJobStatus_keyed_on_existence_only :
    (∀ (t : JobsTable) (id : String) (st : JobStatus) (u : JobUpdates) (n : Nat),
      (updateJobStatus t id st u n).isOk = (lookupJob t id).isSome) ∧
    (∀ (t : JobsTable) (id : String) (st : JobStatus) (u : JobUpdates) (n1 n2 : Nat)
      (j : JobItem), lookupJob t id = some j →
      updateJobStatus t id st u n1 = .ok (t.map (updFn id st u n1)) ∧
      lookupJob (t.map (updFn id st u n1)) id = some (updateItem st u n1 j) ∧
      updateJobStatus (t.map (updFn id st u n1)) id st u n2
        = .ok ((t.map (updFn id st u n1)).map (updFn id st u n2)) ∧
      lookupJob ((t.map (updFn id st u n1)).map (updFn id st u n2)) id
        = some (updateItem st u n2 (updateItem st u n1 j)) ∧
      (updateItem st u n2 (updateItem st u n1 j)).status
        = (updateItem st u n1 j).status ∧
      (updateItem st u n2 (updateItem st u n1 j)).errorMsg
        = (updateItem st u n1 j).errorMsg ∧
      (updateItem st u n2 (updateItem st u n1 j)).metadata
        = (updateItem st u n1 j).metadata ∧
      (updateItem st u n2 (updateItem st u n1 j)).result
        = (updateItem st u n1 j).result ∧
      (updateItem st u n2 (updateItem st u n1 j)).updatedAt = n2 ∧
      (st.isTerminal = true →
        (updateItem st u n2 (updateItem st u n1 j)).completedAt = some n2)) := by
  constructor
  · exact updateJobStatus_isOk_eq
  · intro t id st u n1 n2 j h
    obtain ⟨ue, um⟩ := u
    have h1 := updateJobStatus_ok t id st ⟨ue, um⟩ n1 j h
    have h2 := lookupJob_updTable_self t id st ⟨ue, um⟩ n1 j h
    have h3 := updateJobStatus_ok _ id st ⟨ue, um⟩ n2 _ h2
    have h4 := lookupJob_updTable_self _ id st ⟨ue, um⟩ n2 _ h2
    refine ⟨h1, h2, h3, h4, ?_, ?_, ?_, ?_, ?_, ?_⟩
    · cases ue <;> cases um <;> simp [updateItem, applyUpdates]
    · cases ue <;> cases um <;> simp [updateItem, applyUpdates]
    · cases ue <;> cases um <;> simp [updateItem, applyUpdates]
    · cases ue <;> cases um <;> simp [updateItem, applyUpdates]
    · cases ue <;> cases um <;> simp [updateItem, applyUpdates]
    · intro ht
      cases ue <;> cases um <;> simp [updateItem, applyUpdates, ht]

/-- C1 witness: redelivering the same terminal update to a concrete
pending job preserves the status reached by the first delivery. -/
theorem updateJobStatus_keyed_on_existence_only_witness :
    (updateItem .SUCCEEDED ⟨none, some "m"⟩ 4
        (updateItem .SUCCEEDED ⟨none, some "m"⟩ 3 cJobPending)).status
      = (updateItem .SUCCEEDED ⟨none, some "m"⟩ 3 cJobPending).status :=
  (updateJobStatus_keyed_on_existence_only.2 [cJobPending] "J2" .SUCCEEDED
    ⟨none, some "m"⟩ 3 4 cJobPending (by decide)).2.2.2.2.1

/-- C1 counterexample: the completion transition is not keyed on the job
being RUNNING, and redelivery is not free of observable side effects: a
FAILED write against a job already SUCCEEDED is accepted, flips the record
to FAILED and rewrites its completion timestamp. -/
theorem updateJobStatus_accepts_write_on_terminal_job :
    cJobTerminal.status = .SUCCEEDED ∧
    (updateJobStatus [cJobTerminal] "J1" .FAILED ⟨some "boom", none⟩ 5).isOk = true ∧
    ((updateJobStatus [cJobTerminal] "J1" .FAILED ⟨some "boom", none⟩ 5).toOption.bind
        (fun t => lookupJob t "J1")).map JobItem.status = some .FAILED ∧
    ((updateJobStatus [cJobTerminal] "J1" .FAILED ⟨some "boom", none⟩ 5).toOption.bind
        (fun t => lookupJob t "J1")).map JobItem.completedAt = some (some 5) ∧
    cJobTerminal.completedAt = some 2 := by
  decide

theorem createJob_ok_eq (t : JobsTable) (job : JobItem) (t1 : JobsTable)
    (h : createJob t job = .ok t1) : t1 = job :: t := by
  unfold createJob at h
  by_cases hs : (lookupJob t job.jobId).isSome = true
  · rw [if_pos hs] at h
    cases h
  · rw [if_neg hs] at h
    exact (Except.ok.inj h).symm

theorem updateJobStatus_ok_lookup_other (t1 : JobsTable) (eid id : String)
    (st : JobStatus) (u : JobUpdates) (n : Nat) (t2 : JobsTable)
    (hU : updateJobStatus t1 eid st u n = .ok t2)
    (hne : (eid == id) = false) :
    lookupJob t2 id = lookupJob t1 id := by
  unfold updateJobStatus at hU
  cases hL : lookupJob t1 eid with
  | none => rw [hL] at hU; cases hU
  | some j =>
      rw [hL] at hU
      rw [← Except.ok.inj hU]
      exact lookupJob_updTable_other t1 eid id st u n hne

/-- C2 (amended): creation through the TypeScript service is write-once:
`createJob` on an identifier that already exists fails with
`InternalError` and produces no new table, so the first record survives.
The JavaScript lambda variant, however, creates with an unconditional put,
so a colliding identifier silently replaces the existing record. -/
theorem createJob_write_once_ts_put_overwrites_js :
    (∀ (t : JobsTable) (job : JobItem), (lookupJob t job.jobId).isSome = true →
      createJob t job = .error (.internalError "Failed to create job")) ∧
    (∀ (t : JobsTable) (job j0 : JobItem), lookupJob t job.jobId = some j0 →
      lookupJob (jsPutJob t job) job.jobId = some job) := by
  constructor
  · intro t job h
    unfold createJob
    rw [if_pos h]
  · intro t job j0 _
    exact lookupJob_jsPutJob_self t job

/-- C2 witness: a duplicate create against a concrete one-job table is
rejected by the TypeScript service. -/
theorem createJob_write_once_ts_put_overwrites_js_witness :
    createJob [cJobTerminal] cJobTerminal
      = .error (.internalError "Failed to create job") :=
  createJob_write_once_ts_put_overwrites_js.1 [cJobTerminal] cJobTerminal (by decide)

/-- C2 counterexample: a JavaScript submit that produces an identifier
already present in the table is not rejected: it answers 202 and the
stored record of alice is overwritten by the new PENDING record of bob. -/
theorem jsSubmit_overwrites_on_id_collision :
    (submitJobJS [cJobAlice9] (some cClaimsBob) cReqAsync "J9" 7 100 101
        (.ok ()) (.err "x") (.ok "loc")).2.2.statusCode = 202 ∧
    (lookupJob (submitJobJS [cJobAlice9] (some cClaimsBob) cReqAsync "J9" 7 100 101
        (.ok ()) (.err "x") (.ok "loc")).1 "J9").map JobItem.userId = some "bob" ∧
    (lookupJob (submitJobJS [cJobAlice9] (some cClaimsBob) cReqAsync "J9" 7 100 101
        (.ok ()) (.err "x") (.ok "loc")).1 "J9").map JobItem.status
      = some .PENDING ∧
    cJobAlice9.userId = "alice" := by
  decide

/-- C3 (amended): the job-store service itself does not enforce
monotonicity (see the counterexample), but every invocation of the
TypeScript submit handler writes exclusively under its freshly generated
job identifier: the record of any other identifier — in particular any job
already in a terminal state — is exactly the same before and after the
invocation, in every branch (validation failure, create failure, sync or
async dispatch, dispatch success or failure). -/
theorem submitJobTS_touches_only_new_job (t : JobsTable) (claims : Option JwtClaims)
    (body : Option RawRequest) (newId : String) (n1 n2 : Nat)
    (so : SyncOutcome) (ao : AsyncOutcome) (id : String)
    (hne : (newId == id) = false) :
    lookupJob (submitJobTS t claims body newId n1 n2 so ao).1 id = lookupJob t id := by
  unfold submitJobTS
  cases hA : extractUserContext claims with
  | error m => rfl
  | ok ctx =>
      dsimp only
      cases body with
      | none => rfl
      | some raw =>
          dsimp only
          cases hz : zodParse raw with
          | none => rfl
          | some req =>
              dsimp only
              cases hc : createJob t (mkJobItemTS newId ctx.userId req n1) with
              | error e => rfl
              | ok t1 =>
                  dsimp only
                  have hcons : lookupJob t1 id = lookupJob t id := by
                    rw [createJob_ok_eq t _ t1 hc]
                    exact lookupJob_cons_ne _ t id hne
                  by_cases hm : (req.mode == "sync") = true
                  · rw [if_pos hm]
                    cases so with
                    | ok img meta =>
                        dsimp only
                        cases hU1 : updateJobStatus t1 newId .SUCCEEDED ⟨none, some meta⟩ n2 with
                        | ok t2 =>
                            dsimp only
                            rw [updateJobStatus_ok_lookup_other t1 newId id _ _ n2 t2 hU1 hne]
                            exact hcons
                        | error e =>
                            dsimp only
                            cases hU2 : updateJobStatus t1 newId .FAILED ⟨some e.message, none⟩ n2 with
                            | ok t2 =>
                                dsimp only
                                rw [updateJobStatus_ok_lookup_other t1 newId id _ _ n2 t2 hU2 hne]
                                exact hcons
                            | error _ =>
                                dsimp only
                                exact hcons
                    | err m =>
                        dsimp only
                        cases hU1 : updateJobStatus t1 newId .FAILED ⟨some m, none⟩ n2 with
                        | ok t2 =>
                            dsimp only
                            rw [updateJobStatus_ok_lookup_other t1 newId id _ _ n2 t2 hU1 hne]
                            exact hcons
                        | error _ =>
                            dsimp only
                            exact hcons
                  · rw [if_neg hm]
                    cases ao with
                    | ok loc =>
                        dsimp only
                        cases hU1 : updateJobStatus t1 newId .RUNNING noUpdates n2 with
                        | ok t2 =>
                            dsimp only
                            rw [updateJobStatus_ok_lookup_other t1 newId id _ _ n2 t2 hU1 hne]
                            exact hcons
                        | error e =>
                            dsimp only
                            cases hU2 : updateJobStatus t1 newId .FAILED ⟨some e.message, none⟩ n2 with
                            | ok t2 =>
                                dsimp only
                                rw [updateJobStatus_ok_lookup_other t1 newId id _ _ n2 t2 hU2 hne]
                                exact hcons
                            | error _ =>
                                dsimp only
                                exact hcons
                    | err m =>
                        dsimp only
                        cases hU1 : updateJobStatus t1 newId .FAILED ⟨some m, none⟩ n2 with
                        | ok t2 =>
                            dsimp only
                            rw [updateJobStatus_ok_lookup_other t1 newId id _ _ n2 t2 hU1 hne]
                            exact hcons
                        | error _ =>
                            dsimp only
                            exact hcons

/-- C3 witness: a concrete submit of bob against a table holding the
terminal job of alice leaves the record of alice untouched. -/
theorem submitJobTS_touches_only_new_job_witness :
    lookupJob (submitJobTS [cJobTerminal] (some cClaimsBob) (some cReqAsync)
        "J7" 100 101 (.err "x") (.ok "loc")).1 "J1"
      = lookupJob [cJobTerminal] "J1" :=
  submitJobTS_touches_only_new_job [cJobTerminal] (some cClaimsBob)
    (some cReqAsync) "J7" 100 101 (.err "x") (.ok "loc") "J1" (by decide)

/-- C3 counterexample: at the level of the operations the job-store
service offers, monotonicity fails: a job taken to SUCCEEDED can be moved
back to RUNNING by a further updateJobStatus call, which is accepted. -/
theorem updateJobStatus_moves_terminal_back_to_running :
    (((updateJobStatus [cJobPending] "J2" .SUCCEEDED noUpdates 3).toOption.bind
        (fun t1 => (updateJobStatus t1 "J2" .RUNNING noUpdates 4).toOption)).bind
        (fun t2 => lookupJob t2 "J2")).map JobItem.status = some .RUNNING ∧
    ((updateJobStatus [cJobPending] "J2" .SUCCEEDED noUpdates 3).toOption.bind
        (fun t1 => lookupJob t1 "J2")).map JobItem.status = some .SUCCEEDED := by
  decide

/-- C4 (amended): when the dispatch step fails, the TypeScript handler
transitions the stored record to FAILED with the underlying error message
and surfaces a 500 to the caller in a single attempt, in both modes. The
JavaScript variant does so only in sync mode; in async mode a failure of
the staging write or of the invocation falls to the outer catch, which
answers 500 while the record stays PENDING with no error recorded. -/
theorem dispatch_failure_failed_in_ts_pending_in_js_async :
    ∀ (t : JobsTable) (claims : Option JwtClaims) (newId : String),
    (∀ (raw : RawRequest) (n1 n2 : Nat) (ctx : UserContext)
       (req : SubmitJobRequest) (m : String),
      extractUserContext claims = .ok ctx →
      zodParse raw = some req →
      lookupJob t newId = none →
      (((req.mode == "sync") = false → ∀ so,
        (submitJobTS t claims (some raw) newId n1 n2 so (.err m)).2
          = errResp 500 m [] ∧
        (lookupJob (submitJobTS t claims (some raw) newId n1 n2 so (.err m)).1
            newId).map JobItem.status = some .FAILED ∧
        (lookupJob (submitJobTS t claims (some raw) newId n1 n2 so (.err m)).1
            newId).map JobItem.errorMsg = some (some m)) ∧
       ((req.mode == "sync") = true → ∀ ao,
        (submitJobTS t claims (some raw) newId n1 n2 (.err m) ao).2
          = errResp 500 m [] ∧
        (lookupJob (submitJobTS t claims (some raw) newId n1 n2 (.err m) ao).1
            newId).map JobItem.status = some .FAILED ∧
        (lookupJob (submitJobTS t claims (some raw) newId n1 n2 (.err m) ao).1
            newId).map JobItem.errorMsg = some (some m)))) ∧
    (∀ (body : RawRequest) (rnd : Rat) (tN tU : Nat) (me : String),
      validateInput body = [] →
      ((jsOrStrD body.mode "async" = "async" → ∀ so ao,
        (submitJobJS t claims body newId rnd tN tU (.error me) so ao).2.2
          = errResp 500 "Internal server error" [me] ∧
        (submitJobJS t claims body newId rnd tN tU (.error me) so ao).2.1 = [] ∧
        (lookupJob (submitJobJS t claims body newId rnd tN tU (.error me) so ao).1
            newId).map JobItem.status = some .PENDING ∧
        (lookupJob (submitJobJS t claims body newId rnd tN tU (.error me) so ao).1
            newId).map JobItem.errorMsg = some none) ∧
       (jsOrStrD body.mode "async" = "async" → ∀ so,
        (submitJobJS t claims body newId rnd tN tU (.ok ()) so (.err me)).2.2
          = errResp 500 "Internal server error" [me] ∧
        (lookupJob (submitJobJS t claims body newId rnd tN tU (.ok ()) so (.err me)).1
            newId).map JobItem.status = some .PENDING) ∧
       (jsOrStrD body.mode "async" = "sync" → ∀ s3o ao,
        (submitJobJS t claims body newId rnd tN tU s3o (.err me) ao).2.2
          = errResp 500 "Inference failed" [me] ∧
        (lookupJob (submitJobJS t claims body newId rnd tN tU s3o (.err me) ao).1
            newId).map JobItem.status = some .FAILED ∧
        (lookupJob (submitJobJS t claims body newId rnd tN tU s3o (.err me) ao).1
            newId).map JobItem.errorMsg = some (some me)))) := by
  intro t claims newId
  constructor
  · intro raw n1 n2 ctx req m hauth hz hfresh
    have hfresh' : lookupJob t (mkJobItemTS newId ctx.userId req n1).jobId = none := hfresh
    have hc : createJob t (mkJobItemTS newId ctx.userId req n1)
        = .ok (mkJobItemTS newId ctx.userId req n1 :: t) := by
      unfold createJob
      rw [hfresh']
      rfl
    have hself : lookupJob (mkJobItemTS newId ctx.userId req n1 :: t) newId
        = some (mkJobItemTS newId ctx.userId req n1) :=
      lookupJob_cons_self _ t newId (by simp [mkJobItemTS])
    constructor
    · intro hmode so
      have hU : updateJobStatus (mkJobItemTS newId ctx.userId req n1 :: t) newId
          .FAILED ⟨some m, none⟩ n2
          = .ok ((mkJobItemTS newId ctx.userId req n1 :: t).map
              (updFn newId .FAILED ⟨some m, none⟩ n2)) :=
        updateJobStatus_ok _ newId .FAILED ⟨some m, none⟩ n2 _ hself
      have hEval : submitJobTS t claims (some raw) newId n1 n2 so (.err m)
          = ((mkJobItemTS newId ctx.userId req n1 :: t).map
              (updFn newId .FAILED ⟨some m, none⟩ n2), errResp 500 m []) := by
        unfold submitJobTS
        rw [hauth]
        dsimp only
        rw [hz]
        dsimp only
        rw [hc]
        dsimp only
        rw [if_neg (show ¬((req.mode == "sync") = true) by simp [hmode])]
        try dsimp only
        rw [hU]
      rw [hEval]
      refine ⟨rfl, ?_, ?_⟩
      · rw [lookupJob_updTable_self _ newId .FAILED ⟨some m, none⟩ n2 _ hself]
        rfl
      · rw [lookupJob_updTable_self _ newId .FAILED ⟨some m, none⟩ n2 _ hself]
        rfl
    · intro hmode ao
      have hU : updateJobStatus (mkJobItemTS newId ctx.userId req n1 :: t) newId
          .FAILED ⟨some m, none⟩ n2
          = .ok ((mkJobItemTS newId ctx.userId req n1 :: t).map
              (updFn newId .FAILED ⟨some m, none⟩ n2)) :=
        updateJobStatus_ok _ newId .FAILED ⟨some m, none⟩ n2 _ hself
      have hEval : submitJobTS t claims (some raw) newId n1 n2 (.err m) ao
          = ((mkJobItemTS newId ctx.userId req n1 :: t).map
              (updFn newId .FAILED ⟨some m, none⟩ n2), errResp 500 m []) := by
        unfold submitJobTS
        rw [hauth]
        dsimp only
        rw [hz]
        dsimp only
        rw [hc]
        dsimp only
        rw [if_pos hmode]
        try dsimp only
        rw [hU]
      rw [hEval]
      refine ⟨rfl, ?_, ?_⟩
      · rw [lookupJob_updTable_self _ newId .FAILED ⟨some m, none⟩ n2 _ hself]
        rfl
      · rw [lookupJob_updTable_self _ newId .FAILED ⟨some m, none⟩ n2 _ hself]
        rfl
  · intro body rnd tN tU me hv
    refine ⟨?_, ?_, ?_⟩
    · intro hma so ao
      have hEval : submitJobJS t claims body newId rnd tN tU (.error me) so ao
          = (jsPutJob t (mkJobItemJS newId (getUserId claims)
              (mkJsInferenceParams body rnd) (jsOrStrD body.mode "async") tN),
             [], errResp 500 "Internal server error" [me]) := by
        unfold submitJobJS
        rw [hv]
        rw [if_neg (show ¬((!(([] : List String) == [])) = true) by decide)]
        dsimp only
        rw [if_pos (show (jsOrStrD body.mode "async" == "async") = true by simp [hma])]
        try dsimp only
      rw [hEval]
      refine ⟨rfl, rfl, ?_, ?_⟩
      · rw [show lookupJob (jsPutJob t (mkJobItemJS newId (getUserId claims)
            (mkJsInferenceParams body rnd) (jsOrStrD body.mode "async") tN)) newId
            = some (mkJobItemJS newId (getUserId claims)
              (mkJsInferenceParams body rnd) (jsOrStrD body.mode "async") tN)
          from lookupJob_jsPutJob_self t _]
        rfl
      · rw [show lookupJob (jsPutJob t (mkJobItemJS newId (getUserId claims)
            (mkJsInferenceParams body rnd) (jsOrStrD body.mode "async") tN)) newId
            = some (mkJobItemJS newId (getUserId claims)
              (mkJsInferenceParams body rnd) (jsOrStrD body.mode "async") tN)
          from lookupJob_jsPutJob_self t _]
        rfl
    · intro hma so
      have hEval : submitJobJS t claims body newId rnd tN tU (.ok ()) so (.err me)
          = (jsPutJob t (mkJobItemJS newId (getUserId claims)
              (mkJsInferenceParams body rnd) (jsOrStrD body.mode "async") tN),
             ["jobs/" ++ newId ++ "/input.json"],
             errResp 500 "Internal server error" [me]) := by
        unfold submitJobJS
        rw [hv]
        rw [if_neg (show ¬((!(([] : List String) == [])) = true) by decide)]
        dsimp only
        rw [if_pos (show (jsOrStrD body.mode "async" == "async") = true by simp [hma])]
        try dsimp only
      rw [hEval]
      refine ⟨rfl, ?_⟩
      rw [show lookupJob (jsPutJob t (mkJobItemJS newId (getUserId claims)
            (mkJsInferenceParams body rnd) (jsOrStrD body.mode "async") tN)) newId
            = some (mkJobItemJS newId (getUserId claims)
              (mkJsInferenceParams body rnd) (jsOrStrD body.mode "async") tN)
          from lookupJob_jsPutJob_self t _]
      rfl
    · intro hms s3o ao
      have hEval : submitJobJS t claims body newId rnd tN tU s3o (.err me) ao
          = (jsPutJob
               (jsPutJob t (mkJobItemJS newId (getUserId claims)
                 (mkJsInferenceParams body rnd) (jsOrStrD body.mode "async") tN))
               { mkJobItemJS newId (getUserId claims)
                   (mkJsInferenceParams body rnd) (jsOrStrD body.mode "async") tN with
                 status := .FAILED, updatedAt := tU, errorMsg := some me },
             [], errResp 500 "Inference failed" [me]) := by
        unfold submitJobJS
        rw [hv]
        rw [if_neg (show ¬((!(([] : List String) == [])) = true) by decide)]
        dsimp only
        rw [if_neg (show ¬((jsOrStrD body.mode "async" == "async") = true) by simp [hms])]
        try dsimp only
      rw [hEval]
      refine ⟨rfl, ?_, ?_⟩
      · rw [show lookupJob (jsPutJob
            (jsPutJob t (mkJobItemJS newId (getUserId claims)
              (mkJsInferenceParams body rnd) (jsOrStrD body.mode "async") tN))
            { mkJobItemJS newId (getUserId claims)
                (mkJsInferenceParams body rnd) (jsOrStrD body.mode "async") tN with
              status := .FAILED, updatedAt := tU, errorMsg := some me }) newId
            = some { mkJobItemJS newId (getUserId claims)
                (mkJsInferenceParams body rnd) (jsOrStrD body.mode "async") tN with
              status := .FAILED, updatedAt := tU, errorMsg := some me }
          from lookupJob_jsPutJob_self _ _]
        rfl
      · rw [show lookupJob (jsPutJob
            (jsPutJob t (mkJobItemJS newId (getUserId claims)
              (mkJsInferenceParams body rnd) (jsOrStrD body.mode "async") tN))
            { mkJobItemJS newId (getUserId claims)
                (mkJsInferenceParams body rnd) (jsOrStrD body.mode "async") tN with
              status := .FAILED, updatedAt := tU, errorMsg := some me }) newId
            = some { mkJobItemJS newId (getUserId claims)
                (mkJsInferenceParams body rnd) (jsOrStrD body.mode "async") tN with
              status := .FAILED, updatedAt := tU, errorMsg := some me }
          from lookupJob_jsPutJob_self _ _]
        rfl

/-- C4 witness: a concrete async submit whose staging write fails answers
500 and leaves the record PENDING in the JavaScript variant. -/
theorem dispatch_failure_failed_in_ts_pending_in_js_async_witness :
    (submitJobJS [] (some cClaims) cReqAsync "J5" 7 100 101 (.error "S3 down")
        (.err "x") (.ok "loc")).2.2 = errResp 500 "Internal server error" ["S3 down"] ∧
    (submitJobJS [] (some cClaims) cReqAsync "J5" 7 100 101 (.error "S3 down")
        (.err "x") (.ok "loc")).2.1 = [] ∧
    (lookupJob (submitJobJS [] (some cClaims) cReqAsync "J5" 7 100 101 (.error "S3 down")
        (.err "x") (.ok "loc")).1 "J5").map JobItem.status = some .PENDING ∧
    (lookupJob (submitJobJS [] (some cClaims) cReqAsync "J5" 7 100 101 (.error "S3 down")
        (.err "x") (.ok "loc")).1 "J5").map JobItem.errorMsg = some none :=
  ((dispatch_failure_failed_in_ts_pending_in_js_async [] (some cClaims) "J5").2
    cReqAsync 7 100 101 "S3 down" (by decide)).1 (by decide) (.err "x") (.ok "loc")

/-- C4 counterexample: in the JavaScript variant an async dispatch failure
does not transition the job to FAILED: the handler answers 500 while the
stored record remains PENDING with no error recorded. -/
theorem js_async_dispatch_failure_leaves_pending :
    (submitJobJS [] (some cClaims) cReqAsync "J6" 7 100 101 (.ok ())
        (.err "x") (.err "endpoint down")).2.2
      = errResp 500 "Internal server error" ["endpoint down"] ∧
    (lookupJob (submitJobJS [] (some cClaims) cReqAsync "J6" 7 100 101 (.ok ())
        (.err "x") (.err "endpoint down")).1 "J6").map JobItem.status
      = some .PENDING ∧
    (lookupJob (submitJobJS [] (some cClaims) cReqAsync "J6" 7 100 101 (.ok ())
        (.err "x") (.err "endpoint down")).1 "J6").map JobItem.errorMsg
      = some none := by
  decide

theorem zodPromptIssues_eq_nil (o : Option String) :
    zodPromptIssues o = [] ↔ ∃ p, o = some p ∧ 1 ≤ p.length ∧ p.length ≤ 1000 := by
  cases o with
  | none => simp [zodPromptIssues]
  | some p =>
      have he : zodPromptIssues (some p) = []
          ↔ (¬(p.length < 1) ∧ ¬(1000 < p.length)) := by
        by_cases h1 : p.length < 1 <;> by_cases h2 : 1000 < p.length <;>
          simp [zodPromptIssues, h1, h2]
      rw [he]
      simp [not_lt]
      omega

theorem zodStepsIssues_eq_nil (o : Option Rat) :
    zodStepsIssues o = [] ↔ ∀ s ∈ o, s.den = 1 ∧ 1 ≤ s ∧ s ≤ 50 := by
  cases o with
  | none => simp [zodStepsIssues]
  | some s =>
      have he : zodStepsIssues (some s) = []
          ↔ (s.den = 1 ∧ ¬(s < 1) ∧ ¬((50:Rat) < s)) := by
        by_cases h0 : s.den = 1 <;> by_cases h1 : s < 1 <;>
          by_cases h2 : (50:Rat) < s <;> simp [zodStepsIssues, h0, h1, h2]
      rw [he]
      simp [not_lt]

theorem zodGuidanceIssues_eq_nil (o : Option Rat) :
    zodGuidanceIssues o = [] ↔ ∀ g ∈ o, 1 ≤ g ∧ g ≤ 20 := by
  cases o with
  | none => simp [zodGuidanceIssues]
  | some g =>
      have he : zodGuidanceIssues (some g) = []
          ↔ (¬(g < 1) ∧ ¬((20:Rat) < g)) := by
        by_cases h1 : g < 1 <;> by_cases h2 : (20:Rat) < g <;>
          simp [zodGuidanceIssues, h1, h2]
      rw [he]
      simp [not_lt]

theorem zodWidthIssues_eq_nil (o : Option Rat) :
    zodWidthIssues o = [] ↔
      ∀ w ∈ o, w.den = 1 ∧ 256 ≤ w ∧ w ≤ 1024 ∧ ratDivisibleBy64 w = true := by
  cases o with
  | none => simp [zodWidthIssues]
  | some w =>
      have he : zodWidthIssues (some w) = []
          ↔ (w.den = 1 ∧ ¬(w < 256) ∧ ¬((1024:Rat) < w) ∧ ratDivisibleBy64 w = true) := by
        by_cases h0 : w.den = 1 <;> by_cases h1 : w < 256 <;>
          by_cases h2 : (1024:Rat) < w <;> by_cases h3 : ratDivisibleBy64 w = true <;>
          simp [zodWidthIssues, h0, h1, h2, h3]
      rw [he]
      simp [not_lt]

theorem zodHeightIssues_eq_nil (o : Option Rat) :
    zodHeightIssues o = [] ↔
      ∀ h ∈ o, h.den = 1 ∧ 256 ≤ h ∧ h ≤ 1024 ∧ ratDivisibleBy64 h = true := by
  cases o with
  | none => simp [zodHeightIssues]
  | some w =>
      have he : zodHeightIssues (some w) = []
          ↔ (w.den = 1 ∧ ¬(w < 256) ∧ ¬((1024:Rat) < w) ∧ ratDivisibleBy64 w = true) := by
        by_cases h0 : w.den = 1 <;> by_cases h1 : w < 256 <;>
          by_cases h2 : (1024:Rat) < w <;> by_cases h3 : ratDivisibleBy64 w = true <;>
          simp [zodHeightIssues, h0, h1, h2, h3]
      rw [he]
      simp [not_lt]

theorem zodSeedIssues_eq_nil (o : Option Rat) :
    zodSeedIssues o = [] ↔ ∀ s ∈ o, s.den = 1 ∧ 0 ≤ s ∧ s ≤ 2147483647 := by
  cases o with
  | none => simp [zodSeedIssues]
  | some s =>
      have he : zodSeedIssues (some s) = []
          ↔ (s.den = 1 ∧ ¬(s < 0) ∧ ¬((2147483647:Rat) < s)) := by
        by_cases h0 : s.den = 1 <;> by_cases h1 : s < 0 <;>
          by_cases h2 : (2147483647:Rat) < s <;> simp [zodSeedIssues, h0, h1, h2]
      rw [he]
      simp [not_lt]

theorem zodQualityIssues_eq_nil (o : Option String) :
    zodQualityIssues o = [] ↔ ∀ q ∈ o, q = "low" ∨ q = "medium" ∨ q = "high" := by
  cases o with
  | none => simp [zodQualityIssues]
  | some q =>
      have he : zodQualityIssues (some q) = []
          ↔ (q == "low" || q == "medium" || q == "high") = true := by
        by_cases h : (q == "low" || q == "medium" || q == "high") = true <;>
          simp [zodQualityIssues, h]
      rw [he]
      simp only [Bool.or_eq_true, beq_iff_eq, Option.mem_def, Option.some.injEq,
        forall_eq_apply_imp_iff, forall_eq]
      constructor
      · intro h
        intro x hx
        cases hx
        tauto
      · intro h
        have := h q rfl
        tauto

theorem zodModeIssues_eq_nil (o : Option String) :
    zodModeIssues o = [] ↔ ∀ m ∈ o, m = "async" ∨ m = "sync" := by
  cases o with
  | none => simp [zodModeIssues]
  | some m =>
      have he : zodModeIssues (some m) = []
          ↔ (m == "async" || m == "sync") = true := by
        by_cases h : (m == "async" || m == "sync") = true <;> simp [zodModeIssues, h]
      rw [he]
      constructor
      · intro h x hx
        cases hx
        simpa using h
      · intro h
        have := h m rfl
        simpa using this

theorem zodNegativePromptIssues_eq_nil (o : Option String) :
    zodNegativePromptIssues o = [] ↔ ∀ np ∈ o, np.length ≤ 500 := by
  cases o with
  | none => simp [zodNegativePromptIssues]
  | some np =>
      have he : zodNegativePromptIssues (some np) = [] ↔ ¬(500 < np.length) := by
        by_cases h : 500 < np.length <;> simp [zodNegativePromptIssues, h]
      rw [he]
      simp [not_lt]

theorem validateInput_eq_nil (b : RawRequest) :
    validateInput b = [] ↔
      (truthyStr b.prompt = true ∧ ¬(jsTrim (b.prompt.getD "") = "")) ∧
      (truthyStr b.prompt = true → (b.prompt.getD "").length ≤ 1000) ∧
      (truthyRat b.steps = true → 1 ≤ b.steps.getD 0 ∧ b.steps.getD 0 ≤ 50) ∧
      (truthyRat b.guidanceScale = true →
        1 ≤ b.guidanceScale.getD 0 ∧ b.guidanceScale.getD 0 ≤ 20) ∧
      (truthyRat b.width = true →
        256 ≤ b.width.getD 0 ∧ b.width.getD 0 ≤ 1024 ∧
          ratDivisibleBy64 (b.width.getD 0) = true) ∧
      (truthyRat b.height = true →
        256 ≤ b.height.getD 0 ∧ b.height.getD 0 ≤ 1024 ∧
          ratDivisibleBy64 (b.height.getD 0) = true) ∧
      (truthyRat b.seed = true → 0 ≤ b.seed.getD 0 ∧ b.seed.getD 0 ≤ 2147483647) ∧
      (truthyStr b.quality = true →
        b.quality.getD "" = "low" ∨ b.quality.getD "" = "medium" ∨
          b.quality.getD "" = "high") ∧
      (truthyStr b.mode = true →
        b.mode.getD "" = "async" ∨ b.mode.getD "" = "sync") := by
  have hone : ∀ (g : Bool) (x : String), ((if g then [x] else []) = []) ↔ g = false := by
    intro g x
    cases g <;> simp
  have hb1 : ∀ (a c : Bool), (a || c) = false ↔ a = false ∧ c = false := by decide
  have hb2 : ∀ (a c : Bool), (a && c) = false ↔ (a = true → c = false) := by decide
  have hnot : ∀ a : Bool, (!a) = false ↔ a = true := by decide
  have hnotf : ∀ a : Bool, (!a) = true ↔ a = false := by decide
  unfold validateInput
  simp only [List.append_eq_nil, hone, hb1, hb2, hnot, hnotf, decide_eq_false_iff_not,
    not_lt, beq_eq_false_iff_ne, Bool.or_eq_true, beq_iff_eq, ne_eq, ite_eq_right_iff,
    List.cons_ne_nil, imp_false, not_or, Bool.not_eq_false, and_assoc, or_assoc]

/-- C5 (amended): the two admission validators are characterized exactly.
The zod schema accepts a request iff the prompt is present with length in
[1, 1000] (length 1000 accepted, 1001 rejected) and every provided
optional field is in range: steps an integer in [1, 50], guidance scale in
[1.0, 20.0], width and height integers in [256, 1024] divisible by 64,
seed an integer in [0, 2^31 - 1], quality in {low, medium, high}, mode in
{sync, async} — plus a constraint absent from the claim: a provided
negative prompt is at most 500 characters. The JavaScript validator
applies each range check only when the field is JavaScript-truthy, so
zero-valued numeric fields (e.g. steps of 0) bypass their checks, steps
need not be an integer, and a whitespace-only prompt is rejected there
though the zod schema accepts it. Every violated check contributes its own
field-specific message. -/
theorem admission_validation_characterized (r : RawRequest) :
    (zodAccepts r = true ↔
      ((∃ p, r.prompt = some p ∧ 1 ≤ p.length ∧ p.length ≤ 1000) ∧
       (∀ s ∈ r.steps, s.den = 1 ∧ 1 ≤ s ∧ s ≤ 50) ∧
       (∀ g ∈ r.guidanceScale, 1 ≤ g ∧ g ≤ 20) ∧
       (∀ w ∈ r.width, w.den = 1 ∧ 256 ≤ w ∧ w ≤ 1024 ∧ ratDivisibleBy64 w = true) ∧
       (∀ h ∈ r.height, h.den = 1 ∧ 256 ≤ h ∧ h ≤ 1024 ∧ ratDivisibleBy64 h = true) ∧
       (∀ s ∈ r.seed, s.den = 1 ∧ 0 ≤ s ∧ s ≤ 2147483647) ∧
       (∀ q ∈ r.quality, q = "low" ∨ q = "medium" ∨ q = "high") ∧
       (∀ m ∈ r.mode, m = "async" ∨ m = "sync") ∧
       (∀ np ∈ r.negativePrompt, np.length ≤ 500))) ∧
    (validateInput r = [] ↔
      ((truthyStr r.prompt = true ∧ ¬(jsTrim (r.prompt.getD "") = "")) ∧
       (truthyStr r.prompt = true → (r.prompt.getD "").length ≤ 1000) ∧
       (truthyRat r.steps = true → 1 ≤ r.steps.getD 0 ∧ r.steps.getD 0 ≤ 50) ∧
       (truthyRat r.guidanceScale = true →
         1 ≤ r.guidanceScale.getD 0 ∧ r.guidanceScale.getD 0 ≤ 20) ∧
       (truthyRat r.width = true →
         256 ≤ r.width.getD 0 ∧ r.width.getD 0 ≤ 1024 ∧
           ratDivisibleBy64 (r.width.getD 0) = true) ∧
       (truthyRat r.height = true →
         256 ≤ r.height.getD 0 ∧ r.height.getD 0 ≤ 1024 ∧
           ratDivisibleBy64 (r.height.getD 0) = true) ∧
       (truthyRat r.seed = true → 0 ≤ r.seed.getD 0 ∧ r.seed.getD 0 ≤ 2147483647) ∧
       (truthyStr r.quality = true →
         r.quality.getD "" = "low" ∨ r.quality.getD "" = "medium" ∨
           r.quality.getD "" = "high") ∧
       (truthyStr r.mode = true →
         r.mode.getD "" = "async" ∨ r.mode.getD "" = "sync"))) := by
  constructor
  · have hacc : zodAccepts r = true ↔ zodIssues r = [] := by
      simp [zodAccepts]
    rw [hacc]
    unfold zodIssues
    simp only [List.append_eq_nil]
    rw [zodPromptIssues_eq_nil, zodStepsIssues_eq_nil, zodGuidanceIssues_eq_nil,
      zodWidthIssues_eq_nil, zodHeightIssues_eq_nil, zodSeedIssues_eq_nil,
      zodQualityIssues_eq_nil, zodModeIssues_eq_nil, zodNegativePromptIssues_eq_nil]
    simp only [and_assoc]
  · exact validateInput_eq_nil r

/-- C5 witness: the body with prompt hi and steps 0 satisfies the
JavaScript-side characterization, hence passes validateInput. -/
theorem admission_validation_characterized_witness :
    validateInput cReqSteps0 = [] :=
  (admission_validation_characterized cReqSteps0).2.mpr (by decide)

/-- C5 counterexample: acceptance is not equivalent to the stated ranges:
the JavaScript validator accepts a body whose steps value 0 is outside
[1, 50] (0 is falsy, so the check is skipped), while the zod schema
rejects the same body. -/
theorem validateInput_accepts_zero_steps :
    validateInput cReqSteps0 = [] ∧ cReqSteps0.steps = some 0 ∧
    ¬((1:Rat) ≤ 0) ∧ zodAccepts cReqSteps0 = false := by
  decide

/-- C6: a get on an existing job succeeds exactly for the owner or an
elevated requester, and a non-owner, non-elevated requester receives
Forbidden (403), never NotFound. In the TypeScript path
`validateResourceAccess` passes iff the requester is admin or the owner;
in the JavaScript handler an existing job never yields 404, yields the
record for the owner or the literal admin user, and yields 403 otherwise. -/
theorem get_job_requires_owner_or_admin (t : JobsTable) (claims : Option JwtClaims)
    (id : String) (job : JobItem) (ctx : UserContext)
    (h : lookupJob t id = some job) :
    ((validateResourceAccess ctx job.userId = .ok ()) ↔
      (ctx.isAdmin = true ∨ ctx.userId = job.userId)) ∧
    (getJobHandlerJS t claims (some id) ≠ .notFound) ∧
    ((job.userId = getUserId claims ∨ getUserId claims = "admin") →
      getJobHandlerJS t claims (some id) = .ok job) ∧
    (¬(job.userId = getUserId claims ∨ getUserId claims = "admin") →
      getJobHandlerJS t claims (some id) = .forbidden ∧
      (getJobHandlerJS t claims (some id)).statusCode = 403) := by
  have hred : getJobHandlerJS t claims (some id)
      = (if !(job.userId == getUserId claims) && !(getUserId claims == "admin")
         then GetJobOutcome.forbidden else GetJobOutcome.ok job) := by
    unfold getJobHandlerJS
    dsimp only
    rw [h]
  refine ⟨?_, ?_, ?_, ?_⟩
  · by_cases ha : ctx.isAdmin = true
    · simp [validateResourceAccess, ha]
    · have ha' : ctx.isAdmin = false := by simpa using ha
      by_cases hu : ctx.userId = job.userId
      · simp [validateResourceAccess, ha', hu]
      · simp [validateResourceAccess, ha', hu]
  · rw [hred]
    by_cases hc : (!(job.userId == getUserId claims) && !(getUserId claims == "admin")) = true
    · rw [if_pos hc]
      simp
    · rw [if_neg hc]
      simp
  · intro hOwn
    rw [hred]
    rcases hOwn with h1 | h1
    · have hb : (job.userId == getUserId claims) = true := by simp [h1]
      rw [if_neg (by simp [hb])]
    · have hb : (getUserId claims == "admin") = true := by simp [h1]
      rw [if_neg (by simp [hb])]
  · intro hNot
    obtain ⟨hn1, hn2⟩ := not_or.mp hNot
    have hc : (!(job.userId == getUserId claims) && !(getUserId claims == "admin")) = true := by
      simp [hn1, hn2]
    rw [hred, if_pos hc]
    exact ⟨rfl, rfl⟩

/-- C6 witness: bob requesting the job of alice gets Forbidden with status
code 403, not NotFound. -/
theorem get_job_requires_owner_or_admin_witness :
    getJobHandlerJS [cJobAlice9] (some cClaimsBob) (some "J9") = .forbidden ∧
    (getJobHandlerJS [cJobAlice9] (some cClaimsBob) (some "J9")).statusCode = 403 :=
  (get_job_requires_owner_or_admin [cJobAlice9] (some cClaimsBob) "J9" cJobAlice9
    ⟨"bob", none, none, false⟩ (by decide)).2.2.2 (by decide)

/-- C7 (amended): on a successful async dispatch both handlers answer 202
with the job id, status PENDING and the wait estimate 60-120 seconds; the
TypeScript handler transitions the stored record to RUNNING before
returning, while the JavaScript variant never issues that transition and
leaves the stored record PENDING. -/
theorem async_submit_202_running_in_ts_pending_in_js :
    ∀ (t : JobsTable) (claims : Option JwtClaims) (newId : String),
    (∀ (raw : RawRequest) (n1 n2 : Nat) (ctx : UserContext)
       (req : SubmitJobRequest) (loc : String) (so : SyncOutcome),
      extractUserContext claims = .ok ctx →
      zodParse raw = some req →
      lookupJob t newId = none →
      (req.mode == "sync") = false →
      (submitJobTS t claims (some raw) newId n1 n2 so (.ok loc)).2
        = { statusCode := 202, jobId := some newId, status := some .PENDING,
            message := some "Job submitted successfully. First inference may take up to 60 seconds due to cold start.",
            estimatedWaitTime := some "60-120 seconds", errorMsg := none,
            details := [] } ∧
      (lookupJob (submitJobTS t claims (some raw) newId n1 n2 so (.ok loc)).1
          newId).map JobItem.status = some .RUNNING) ∧
    (∀ (body : RawRequest) (rnd : Rat) (tN tU : Nat) (loc : String) (so : SyncOutcome),
      validateInput body = [] →
      jsOrStrD body.mode "async" = "async" →
      (submitJobJS t claims body newId rnd tN tU (.ok ()) so (.ok loc)).2.2
        = { statusCode := 202, jobId := some newId, status := some .PENDING,
            message := some "Job submitted successfully. First inference may take up to 60 seconds due to cold start.",
            estimatedWaitTime := some "60-120 seconds", errorMsg := none,
            details := [] } ∧
      (lookupJob (submitJobJS t claims body newId rnd tN tU (.ok ()) so (.ok loc)).1
          newId).map JobItem.status = some .PENDING) := by
  intro t claims newId
  constructor
  · intro raw n1 n2 ctx req loc so hauth hz hfresh hmode
    have hfresh' : lookupJob t (mkJobItemTS newId ctx.userId req n1).jobId = none := hfresh
    have hc : createJob t (mkJobItemTS newId ctx.userId req n1)
        = .ok (mkJobItemTS newId ctx.userId req n1 :: t) := by
      unfold createJob
      rw [hfresh']
      rfl
    have hself : lookupJob (mkJobItemTS newId ctx.userId req n1 :: t) newId
        = some (mkJobItemTS newId ctx.userId req n1) :=
      lookupJob_cons_self _ t newId (by simp [mkJobItemTS])
    have hU : updateJobStatus (mkJobItemTS newId ctx.userId req n1 :: t) newId
        .RUNNING noUpdates n2
        = .ok ((mkJobItemTS newId ctx.userId req n1 :: t).map
            (updFn newId .RUNNING noUpdates n2)) :=
      updateJobStatus_ok _ newId .RUNNING noUpdates n2 _ hself
    have hEval : submitJobTS t claims (some raw) newId n1 n2 so (.ok loc)
        = ((mkJobItemTS newId ctx.userId req n1 :: t).map
            (updFn newId .RUNNING noUpdates n2),
           { statusCode := 202, jobId := some newId, status := some .PENDING,
             message := some "Job submitted successfully. First inference may take up to 60 seconds due to cold start.",
             estimatedWaitTime := some "60-120 seconds", errorMsg := none,
             details := [] }) := by
      unfold submitJobTS
      rw [hauth]
      dsimp only
      rw [hz]
      dsimp only
      rw [hc]
      dsimp only
      rw [if_neg (show ¬((req.mode == "sync") = true) by simp [hmode])]
      try dsimp only
      rw [hU]
    rw [hEval]
    refine ⟨rfl, ?_⟩
    rw [lookupJob_updTable_self _ newId .RUNNING noUpdates n2 _ hself]
    rfl
  · intro body rnd tN tU loc so hv hma
    have hEval : submitJobJS t claims body newId rnd tN tU (.ok ()) so (.ok loc)
        = (jsPutJob t (mkJobItemJS newId (getUserId claims)
            (mkJsInferenceParams body rnd) (jsOrStrD body.mode "async") tN),
           ["jobs/" ++ newId ++ "/input.json"],
           { statusCode := 202, jobId := some newId, status := some .PENDING,
             message := some "Job submitted successfully. First inference may take up to 60 seconds due to cold start.",
             estimatedWaitTime := some "60-120 seconds", errorMsg := none,
             details := [] }) := by
      unfold submitJobJS
      rw [hv]
      rw [if_neg (show ¬((!(([] : List String) == [])) = true) by decide)]
      dsimp only
      rw [if_pos (show (jsOrStrD body.mode "async" == "async") = true by simp [hma])]
      try dsimp only
    rw [hEval]
    refine ⟨rfl, ?_⟩
    rw [show lookupJob (jsPutJob t (mkJobItemJS newId (getUserId claims)
          (mkJsInferenceParams body rnd) (jsOrStrD body.mode "async") tN)) newId
          = some (mkJobItemJS newId (getUserId claims)
            (mkJsInferenceParams body rnd) (jsOrStrD body.mode "async") tN)
        from lookupJob_jsPutJob_self t _]
    rfl

/-- C7 witness: the concrete end-to-end async submit of the spec through
the TypeScript handler: 202 with PENDING and the wait estimate in the
response, RUNNING in the store. -/
theorem async_submit_202_running_in_ts_pending_in_js_witness :
    (submitJobTS [] (some cClaims) (some cReqAsync) "JW" 100 101 (.err "x") (.ok "loc")).2
      = { statusCode := 202, jobId := some "JW", status := some .PENDING,
          message := some "Job submitted successfully. First inference may take up to 60 seconds due to cold start.",
          estimatedWaitTime := some "60-120 seconds", errorMsg := none,
          details := [] } ∧
    (lookupJob (submitJobTS [] (some cClaims) (some cReqAsync) "JW" 100 101
        (.err "x") (.ok "loc")).1 "JW").map JobItem.status = some .RUNNING :=
  (async_submit_202_running_in_ts_pending_in_js [] (some cClaims) "JW").1
    cReqAsync 100 101 ⟨"u1", none, none, false⟩ cParsedAsync "loc" (.err "x")
    (by rfl) (by decide) (by decide) (by decide)

/-- C7 counterexample: the JavaScript variant returns 202/PENDING but the
stored record is still PENDING when the handler returns, not RUNNING as
claimed. -/
theorem js_async_submit_record_not_running :
    (submitJobJS [] (some cClaims) cReqAsync "J8" 7 100 101 (.ok ())
        (.err "x") (.ok "loc")).2.2.statusCode = 202 ∧
    (lookupJob (submitJobJS [] (some cClaims) cReqAsync "J8" 7 100 101 (.ok ())
        (.err "x") (.ok "loc")).1 "J8").map JobItem.status = some .PENDING ∧
    ¬((lookupJob (submitJobJS [] (some cClaims) cReqAsync "J8" 7 100 101 (.ok ())
        (.err "x") (.ok "loc")).1 "J8").map JobItem.status = some .RUNNING) := by
  decide

theorem updateItem_completedAt (st : JobStatus) (u : JobUpdates) (n : Nat) (j : JobItem) :
    (updateItem st u n j).completedAt
      = (if st.isTerminal = true then some n else j.completedAt) := rfl

theorem updateItem_status (st : JobStatus) (u : JobUpdates) (n : Nat) (j : JobItem) :
    (updateItem st u n j).status = st := rfl

theorem inv_preserved_updTable (t : JobsTable) (job : JobItem) (newId : String)
    (st : JobStatus) (u : JobUpdates) (n : Nat)
    (hjobid : job.jobId = newId)
    (hfresh : lookupJob t newId = none)
    (hInv : ∀ x ∈ t, x.completedAt.isSome = x.status.isTerminal)
    (hjob : job.completedAt = none) (hjobst : job.status.isTerminal = false) :
    ∀ x ∈ (job :: t).map (updFn newId st u n),
      x.completedAt.isSome = x.status.isTerminal := by
  intro x hx
  obtain ⟨y, hy, hxy⟩ := List.mem_map.mp hx
  rcases List.mem_cons.mp hy with hyj | hyt
  · subst hyj
    subst hxy
    unfold updFn
    rw [if_pos (by simp [hjobid])]
    cases hst : st.isTerminal
    · rw [updateItem_completedAt]
      rw [updateItem_status]
      rw [if_neg (by simp [hst]), hjob, hst]
      rfl
    · rw [updateItem_completedAt]
      rw [updateItem_status]
      rw [if_pos (by simp [hst]), hst]
      rfl
  · have hyn : (y.jobId == newId) = false := by
      have hff : ∀ a ∈ t, ¬((fun j : JobItem => j.jobId == newId) a = true) := by
        apply List.find?_eq_none.mp
        exact hfresh
      have := hff y hyt
      simpa using this
    subst hxy
    unfold updFn
    rw [if_neg (by simp [hyn])]
    exact hInv y hyt

theorem inv_holds_cons_fresh (t : JobsTable) (job : JobItem)
    (hInv : ∀ x ∈ t, x.completedAt.isSome = x.status.isTerminal)
    (hjob : job.completedAt = none) (hjobst : job.status.isTerminal = false) :
    ∀ x ∈ job :: t, x.completedAt.isSome = x.status.isTerminal := by
  intro x hx
  rcases List.mem_cons.mp hx with hxe | hxt
  · subst hxe
    rw [hjob, hjobst]
    rfl
  · exact hInv x hxt

/-- C8 (amended): the TypeScript service sets completedAt exactly on
writes of a terminal status — updateJobStatus adds completedAt = now iff
the new status is SUCCEEDED or FAILED — and every table produced by the
TypeScript submit handler satisfies the invariant that completedAt is set
iff the state is terminal, provided the starting table satisfies it. The
JavaScript variant violates the invariant: its terminal writes never set
completedAt (see the counterexample). -/
theorem completedAt_iff_terminal_in_ts :
    (∀ (t : JobsTable) (id : String) (st : JobStatus) (u : JobUpdates) (n : Nat)
       (j : JobItem), lookupJob t id = some j →
      updateJobStatus t id st u n = .ok (t.map (updFn id st u n)) ∧
      (updateItem st u n j).completedAt
        = (if st.isTerminal = true then some n else j.completedAt) ∧
      (updateItem st u n j).status = st) ∧
    (∀ (t : JobsTable) (claims : Option JwtClaims) (body : Option RawRequest)
       (newId : String) (n1 n2 : Nat) (so : SyncOutcome) (ao : AsyncOutcome),
      (∀ x ∈ t, x.completedAt.isSome = x.status.isTerminal) →
      ∀ x ∈ (submitJobTS t claims body newId n1 n2 so ao).1,
        x.completedAt.isSome = x.status.isTerminal) := by
  constructor
  · intro t id st u n j h
    exact ⟨updateJobStatus_ok t id st u n j h, rfl, rfl⟩
  · intro t claims body newId n1 n2 so ao hInv
    unfold submitJobTS
    cases hA : extractUserContext claims with
    | error m => exact hInv
    | ok ctx =>
        dsimp only
        cases body with
        | none => exact hInv
        | some raw =>
            dsimp only
            cases hz : zodParse raw with
            | none => exact hInv
            | some req =>
                dsimp only
                cases hc : createJob t (mkJobItemTS newId ctx.userId req n1) with
                | error e => exact hInv
                | ok t1 =>
                    dsimp only
                    have hfresh : lookupJob t newId = none := by
                      unfold createJob at hc
                      by_cases hs : (lookupJob t (mkJobItemTS newId ctx.userId req n1).jobId).isSome = true
                      · rw [if_pos hs] at hc
                        cases hc
                      · have : lookupJob t (mkJobItemTS newId ctx.userId req n1).jobId = none := by
                          cases hl : lookupJob t (mkJobItemTS newId ctx.userId req n1).jobId
                          · rfl
                          · rw [hl] at hs
                            exact absurd rfl hs
                        exact this
                    have ht1 : t1 = mkJobItemTS newId ctx.userId req n1 :: t :=
                      createJob_ok_eq t _ t1 hc
                    have hInv1 : ∀ x ∈ t1, x.completedAt.isSome = x.status.isTerminal := by
                      rw [ht1]
                      exact inv_holds_cons_fresh t _ hInv rfl rfl
                    have hInvUpd : ∀ (st : JobStatus) (u : JobUpdates) (n : Nat),
                        ∀ x ∈ t1.map (updFn newId st u n),
                          x.completedAt.isSome = x.status.isTerminal := by
                      intro st u n
                      rw [ht1]
                      exact inv_preserved_updTable t _ newId st u n rfl hfresh hInv rfl rfl
                    have hUgen : ∀ (st : JobStatus) (u : JobUpdates) (n : Nat) (t2 : JobsTable),
                        updateJobStatus t1 newId st u n = .ok t2 →
                        ∀ x ∈ t2, x.completedAt.isSome = x.status.isTerminal := by
                      intro st u n t2 hU
                      unfold updateJobStatus at hU
                      cases hL : lookupJob t1 newId with
                      | none =>
                          rw [hL] at hU
                          cases hU
                      | some j0 =>
                          rw [hL] at hU
                          rw [← Except.ok.inj hU]
                          exact hInvUpd st u n
                    by_cases hm : (req.mode == "sync") = true
                    · rw [if_pos hm]
                      cases so with
                      | ok img meta =>
                          dsimp only
                          cases hU1 : updateJobStatus t1 newId .SUCCEEDED ⟨none, some meta⟩ n2 with
                          | ok t2 => exact hUgen _ _ _ t2 hU1
                          | error e =>
                              dsimp only
                              cases hU2 : updateJobStatus t1 newId .FAILED ⟨some e.message, none⟩ n2 with
                              | ok t2 => exact hUgen _ _ _ t2 hU2
                              | error _ => exact hInv1
                      | err m =>
                          dsimp only
                          cases hU1 : updateJobStatus t1 newId .FAILED ⟨some m, none⟩ n2 with
                          | ok t2 => exact hUgen _ _ _ t2 hU1
                          | error _ => exact hInv1
                    · rw [if_neg hm]
                      cases ao with
                      | ok loc =>
                          dsimp only
                          cases hU1 : updateJobStatus t1 newId .RUNNING noUpdates n2 with
                          | ok t2 => exact hUgen _ _ _ t2 hU1
                          | error e =>
                              dsimp only
                              cases hU2 : updateJobStatus t1 newId .FAILED ⟨some e.message, none⟩ n2 with
                              | ok t2 => exact hUgen _ _ _ t2 hU2
                              | error _ => exact hInv1
                      | err m =>
                          dsimp only
                          cases hU1 : updateJobStatus t1 newId .FAILED ⟨some m, none⟩ n2 with
                          | ok t2 => exact hUgen _ _ _ t2 hU1
                          | error _ => exact hInv1

/-- C8 witness: a concrete terminal update sets the completion timestamp. -/
theorem completedAt_iff_terminal_in_ts_witness :
    (updateItem .SUCCEEDED noUpdates 9 cJobPending).completedAt
      = (if JobStatus.SUCCEEDED.isTerminal = true then some 9
         else cJobPending.completedAt) :=
  (completedAt_iff_terminal_in_ts.1 [cJobPending] "J2" .SUCCEEDED noUpdates 9
    cJobPending (by decide)).2.1

/-- C8 counterexample: the JavaScript sync path writes a SUCCEEDED record
with no completedAt attribute at all, so a terminal record exists without
a completion timestamp. -/
theorem js_sync_success_record_lacks_completedAt :
    (lookupJob (submitJobJS [] (some cClaims) cReqSync "J4" 7 100 101 (.ok ())
        (.ok "img" "meta") (.ok "loc")).1 "J4").map JobItem.status
      = some .SUCCEEDED ∧
    (lookupJob (submitJobJS [] (some cClaims) cReqSync "J4" 7 100 101 (.ok ())
        (.ok "img" "meta") (.ok "loc")).1 "J4").map JobItem.completedAt
      = some none := by
  decide

/-- C9: on a submit whose body fails validation, both handlers return a
structured list of field-level violations (status 400) and perform no
writes at all: the job table is returned unchanged and no staging key is
written. -/
theorem validation_failure_has_no_side_effects :
    ∀ (t : JobsTable) (claims : Option JwtClaims) (raw : RawRequest) (newId : String),
    (∀ (n1 n2 : Nat) (so : SyncOutcome) (ao : AsyncOutcome) (ctx : UserContext),
      extractUserContext claims = .ok ctx →
      zodAccepts raw = false →
      (submitJobTS t claims (some raw) newId n1 n2 so ao).1 = t ∧
      (submitJobTS t claims (some raw) newId n1 n2 so ao).2
        = errResp 400 "Invalid request parameters" (zodIssues raw) ∧
      zodIssues raw ≠ []) ∧
    (∀ (rnd : Rat) (tN tU : Nat) (s3o : Except String Unit) (so : SyncOutcome)
       (ao : AsyncOutcome),
      validateInput raw ≠ [] →
      (submitJobJS t claims raw newId rnd tN tU s3o so ao).1 = t ∧
      (submitJobJS t claims raw newId rnd tN tU s3o so ao).2.1 = [] ∧
      (submitJobJS t claims raw newId rnd tN tU s3o so ao).2.2
        = errResp 400 "Validation failed" (validateInput raw)) := by
  intro t claims raw newId
  constructor
  · intro n1 n2 so ao ctx hauth hacc
    have hzp : zodParse raw = none := by
      unfold zodParse
      rw [hacc]
      rfl
    have hEval : submitJobTS t claims (some raw) newId n1 n2 so ao
        = (t, errResp 400 "Invalid request parameters" (zodIssues raw)) := by
      unfold submitJobTS
      rw [hauth]
      dsimp only
      rw [hzp]
    rw [hEval]
    refine ⟨rfl, rfl, ?_⟩
    intro hnil
    unfold zodAccepts at hacc
    rw [hnil] at hacc
    simp at hacc
  · intro rnd tN tU s3o so ao hv
    have hv' : (validateInput raw == []) = false := by
      simpa using hv
    have hEval : submitJobJS t claims raw newId rnd tN tU s3o so ao
        = (t, [], errResp 400 "Validation failed" (validateInput raw)) := by
      unfold submitJobJS
      rw [if_pos (by simp [hv'])]
    rw [hEval]
    exact ⟨rfl, rfl, rfl⟩

/-- C9 witness: a body with an empty prompt and steps 99 is rejected by
both handlers with no writes: the table is unchanged, no staging key is
written, and the violation lists are returned. -/
theorem validation_failure_has_no_side_effects_witness :
    (submitJobTS [cJobTerminal] (some cClaims) (some cReqBad) "JX" 100 101
        (.err "x") (.ok "l")).1 = [cJobTerminal] ∧
    (submitJobTS [cJobTerminal] (some cClaims) (some cReqBad) "JX" 100 101
        (.err "x") (.ok "l")).2
      = errResp 400 "Invalid request parameters" (zodIssues cReqBad) ∧
    zodIssues cReqBad ≠ [] :=
  (validation_failure_has_no_side_effects [cJobTerminal] (some cClaims) cReqBad "JX").1
    100 101 (.err "x") (.ok "l") ⟨"u1", none, none, false⟩ (by rfl) (by decide)

/-- C10: the TypeScript extractUserContext returns a user context iff the
claims are present and carry a truthy sub or cognito:username; otherwise
it throws UnauthorizedError, which the handler surfaces as a 403 response
with no table write. The JavaScript getUserId never rejects: it yields the
same user id when extraction succeeds and the shared fallback id anonymous
whenever extraction would fail. -/
theorem auth_ts_rejects_js_falls_back_anonymous :
    ∀ (c : Option JwtClaims),
      ((extractUserContext c).isOk = true ↔
        (∃ cl, c = some cl ∧
          (truthyStr cl.sub = true ∨ truthyStr cl.cognitoUsername = true))) ∧
      (∀ ctx : UserContext, extractUserContext c = .ok ctx → getUserId c = ctx.userId) ∧
      ((extractUserContext c).isOk = false → getUserId c = "anonymous") ∧
      ((extractUserContext c).isOk = false →
        ∀ (t : JobsTable) (body : Option RawRequest) (newId : String) (n1 n2 : Nat)
          (so : SyncOutcome) (ao : AsyncOutcome),
          (submitJobTS t c body newId n1 n2 so ao).1 = t ∧
          (submitJobTS t c body newId n1 n2 so ao).2.statusCode = 403) := by
  intro c
  cases c with
  | none =>
      refine ⟨?_, ?_, ?_, ?_⟩
      · simp [extractUserContext, Except.isOk, Except.toBool]
      · intro ctx hctx
        simp [extractUserContext] at hctx
      · intro _
        rfl
      · intro _ t body newId n1 n2 so ao
        exact ⟨rfl, rfl⟩
  | some cl =>
      cases hj : jsOrStr cl.sub cl.cognitoUsername with
      | none =>
          have hex2 : extractUserContext (some cl) = .error "Invalid authentication" := by
            unfold extractUserContext
            dsimp only
            rw [hj]
          have hfalsy : truthyStr cl.sub = false ∧ truthyStr cl.cognitoUsername = false := by
            unfold jsOrStr at hj
            by_cases ta : truthyStr cl.sub = true
            · rw [if_pos ta] at hj
              rw [hj] at ta
              simp [truthyStr] at ta
            · rw [if_neg ta] at hj
              by_cases tb : truthyStr cl.cognitoUsername = true
              · rw [if_pos tb] at hj
                rw [hj] at tb
                simp [truthyStr] at tb
              · exact ⟨by simpa using ta, by simpa using tb⟩
          refine ⟨?_, ?_, ?_, ?_⟩
          · rw [hex2]
            simp [hfalsy.1, hfalsy.2, Except.isOk, Except.toBool]
          · intro ctx hctx
            rw [hex2] at hctx
            cases hctx
          · intro _
            unfold getUserId
            dsimp only
            rw [hj]
          · intro _ t body newId n1 n2 so ao
            constructor
            · unfold submitJobTS
              rw [hex2]
            · unfold submitJobTS
              rw [hex2]
              rfl
      | some uid =>
          have hex2 : extractUserContext (some cl)
              = .ok ⟨uid, cl.email, jsOrStr cl.cognitoUsername cl.preferredUsername,
                     cl.groups.contains "admin"⟩ := by
            unfold extractUserContext
            dsimp only
            rw [hj]
          have htruthy : truthyStr cl.sub = true ∨ truthyStr cl.cognitoUsername = true := by
            unfold jsOrStr at hj
            by_cases ta : truthyStr cl.sub = true
            · exact Or.inl ta
            · rw [if_neg ta] at hj
              by_cases tb : truthyStr cl.cognitoUsername = true
              · exact Or.inr tb
              · rw [if_neg tb] at hj
                cases hj
          refine ⟨?_, ?_, ?_, ?_⟩
          · rw [hex2]
            exact iff_of_true rfl ⟨cl, rfl, htruthy⟩
          · intro ctx hctx
            rw [hex2] at hctx
            rw [← Except.ok.inj hctx]
            unfold getUserId
            dsimp only
            rw [hj]
          · intro hfalse
            rw [hex2] at hfalse
            simp [Except.isOk, Except.toBool] at hfalse
          · intro hfalse
            rw [hex2] at hfalse
            simp [Except.isOk, Except.toBool] at hfalse

/-- C10 witness: an event with no authorizer claims is processed by the
JavaScript handlers as anonymous, while the TypeScript submit handler
answers 403 without touching the table. -/
theorem auth_ts_rejects_js_falls_back_anonymous_witness :
    getUserId none = "anonymous" ∧
    (submitJobTS [cJobTerminal] none (some cReqAsync) "JZ" 1 2 (.err "x") (.ok "l")).1
      = [cJobTerminal] ∧
    (submitJobTS [cJobTerminal] none (some cReqAsync) "JZ" 1 2 (.err "x") (.ok "l")).2.statusCode
      = 403 :=
  ⟨(auth_ts_rejects_js_falls_back_anonymous none).2.2.1 (by rfl),
   ((auth_ts_rejects_js_falls_back_anonymous none).2.2.2 (by rfl) [cJobTerminal]
     (some cReqAsync) "JZ" 1 2 (.err "x") (.ok "l")).1,
   ((auth_ts_rejects_js_falls_back_anonymous none).2.2.2 (by rfl) [cJobTerminal]
     (some cReqAsync) "JZ" 1 2 (.err "x") (.ok "l")).2⟩
